import Mathlib

/-!
# SimpleRT (`g-simple-rt.c`): a shallow embedding and its verified properties

The development follows `src/simple-rt-cli/g-simple-rt.c`.

* Machine integers are natural numbers (or integers where the C value is signed) with the
  wrap-around written out: `guint8` is `% 256`, `guint16` is `% 65536`, `guint` is `% 2^32`,
  `gsize` is `% 2^64`.
* The `GHashTable` of subnets is an association list keyed by the sysfs path.
* The `GList` of tracked devices is a list; a list link is the position of its node.
* Everything the environment decides (libusb, the kernel, the helper script) is an explicit
  argument, and everything the program does to the environment is returned as a list of
  `Effect`s, in program order.  Diagnostic output (`g_print`, `g_printerr`) is not modelled.
-/

namespace SimpleRT

/-! ## Constants -/

def AOA_GET_PROTOCOL : Nat := 51
def AOA_SEND_IDENT : Nat := 52
def AOA_START_ACCESSORY : Nat := 53

def AOA_STRING_MAN_ID : Nat := 0
def AOA_STRING_MOD_ID : Nat := 1
def AOA_STRING_DSC_ID : Nat := 2
def AOA_STRING_VER_ID : Nat := 3
def AOA_STRING_URL_ID : Nat := 4
def AOA_STRING_SER_ID : Nat := 5

def AOA_ACCESSORY_VID : Nat := 0x18D1
def AOA_ACCESSORY_PID : Nat := 0x2D00
def AOA_ACCESSORY_ADB_PID : Nat := 0x2D01
def AOA_AUDIO_PID : Nat := 0x2D02
def AOA_AUDIO_ADB_PID : Nat := 0x2D03
def AOA_ACCESSORY_AUDIO_PID : Nat := 0x2D04
def AOA_ACCESSORY_AUDIO_ADB_PID : Nat := 0x2D05

def aoa_pids : List Nat :=
  [AOA_ACCESSORY_PID, AOA_ACCESSORY_ADB_PID, AOA_AUDIO_PID, AOA_AUDIO_ADB_PID,
   AOA_ACCESSORY_AUDIO_PID, AOA_ACCESSORY_AUDIO_ADB_PID]

def AOA_ACCESSORY_EP_IN : Nat := 0x81
def AOA_ACCESSORY_EP_OUT : Nat := 0x02

def default_manufacturer : String := "The SimpleRT developers"
def default_model : String := "gSimpleRT"
def default_description : String := "Simple Reverse Tethering"
def default_version : String := "1.0"
def default_url : String := "https://github.com/aleksander0m/SimpleRT"

def ACC_BUFFER_SIZE : Nat := 4096
def ACC_TIMEOUT : Nat := 200
def TIMEOUT_AFTER_PROTOCOL_PROBE_MS : Nat := 10

/-- Value of `LIBUSB_ENDPOINT_OUT | LIBUSB_REQUEST_TYPE_VENDOR` (`0x00 | 0x40`). -/
def REQUEST_TYPE_VENDOR_OUT : Nat := 0x40
/-- Value of `LIBUSB_ENDPOINT_IN | LIBUSB_REQUEST_TYPE_VENDOR` (`0x80 | 0x40`). -/
def REQUEST_TYPE_VENDOR_IN : Nat := 0xC0
/-- Value of `LIBUSB_ERROR_TIMEOUT`. -/
def LIBUSB_ERROR_TIMEOUT : Int := -7
/-- Length of the `tun_name` array (`IFNAMSIZ`). -/
def IFNAMSIZ : Nat := 16

/-! ## Data model -/

/-- The two callbacks that `track_device` hands to `g_timeout_add`. -/
inductive SetupKind
  | setup_aoa
  | setup_tethering
  deriving DecidableEq, Repr

/-- The `Device` record.  `usb_device` is the `libusb_device` reference (bus number and device
address of the entry found by `find_usb_device`) or `none` for `NULL`; `usb_handle` tells
whether a handle is open; the threads are `true` while the `GThread` pointer is set.
`source_attached` is not a field of the C struct: it records that the GLib timeout source
created by `g_timeout_add` for this device has not fired yet (the callbacks return
`G_SOURCE_REMOVE`, so a source fires at most once). -/
structure Device where
  vid : Nat
  pid : Nat
  busnum : Nat
  devnum : Nat
  sysfs_path : String
  aoa : Bool
  timeout_id : Nat
  usb_device : Option (Nat × Nat)
  usb_handle : Bool
  subnet : Nat
  tun_name : String
  tun_fd : Int
  halt : Bool
  conn_thread : Bool
  tun_thread : Bool
  acc_thread : Bool
  source_attached : Bool
  deriving DecidableEq, Repr

/-- The subnets hash table (`g_str_hash` / `g_str_equal` keys, `guint` stored in the pointer). -/
abbrev SubnetTable := List (String × Nat)

/-- The `Context` record (the fields the tethering logic uses). -/
structure Context where
  vid : Nat
  pid : Nat
  interface : String
  tracked_devices : List Device
  next_subnet : Nat
  subnets : SubnetTable
  deriving DecidableEq, Repr

/-- A control transfer as passed to `libusb_control_transfer`: `data` is the C string the
buffer points at (empty for `NULL`), `wLength` the length argument, `timeout` in ms
(0 is no timeout). -/
structure ControlTransfer where
  bmRequestType : Nat
  bRequest : Nat
  wValue : Nat
  wIndex : Nat
  data : String
  wLength : Nat
  timeout : Nat
  deriving DecidableEq, Repr

/-- A bulk transfer as passed to `libusb_bulk_transfer`: `buffer` is the content of `acc_buf`
at the call, `length` the (C `int`) length argument. -/
structure BulkTransfer where
  endpoint : Nat
  buffer : List Nat
  length : Int
  timeout : Nat
  deriving DecidableEq, Repr

/-- What the program does to its environment, in program order. -/
inductive Effect
  | get_device_list
  | usb_open (busnum devnum : Nat)
  | kernel_driver_active
  | detach_kernel_driver
  | control_transfer (t : ControlTransfer)
  | usb_close
  | timeout_add (ms : Nat) (cb : SetupKind) (sysfs_path : String)
  | source_remove (id : Nat)
  | unref_device
  | thread_new_conn (sysfs_path : String)
  | open_tun
  | ioctl_tunsetiff
  | system (cmd : String)
  | claim_interface
  | thread_new_tun
  | thread_new_acc
  | thread_join_tun
  | thread_join_acc
  | close_tun
  | release_interface
  | select_tun (timeout_sec : Nat)
  | read_tun (count : Nat)
  | bulk_transfer (t : BulkTransfer)
  | write_tun (data : List Nat)
  deriving DecidableEq, Repr

/-- What libusb and the kernel answer during one `track_device` call: the device list of
`libusb_get_device_list` (bus number and device address of each entry), and the return values
of `libusb_open`, `libusb_kernel_driver_active`, `libusb_detach_kernel_driver` and of the
`AOA_GET_PROTOCOL` control transfer.  `source_id` is the id `g_timeout_add` returns. -/
structure UsbEnv where
  devices : List (Nat × Nat)
  open_ret : Int
  driver_active : Int
  detach_ret : Int
  get_protocol_ret : Int
  source_id : Nat
  deriving DecidableEq, Repr

/-- A udev device as `device_added` reads it: each numeric attribute is the value `strtoul`
gives for it, or 0 when the attribute is missing; `sysfs_path` is `none` for `NULL`. -/
structure UdevDevice where
  idVendor : Nat
  idProduct : Nat
  busnum : Nat
  devnum : Nat
  sysfs_path : Option String
  deriving DecidableEq, Repr

/-! ## Subnet management -/

/-- `GPOINTER_TO_UINT (g_hash_table_lookup (table, key))`: 0 when the key is absent. -/
def g_hash_table_lookup : SubnetTable → String → Nat
  | [], _ => 0
  | (k, v) :: rest, key => if k = key then v else g_hash_table_lookup rest key

/-- `g_hash_table_insert`: replaces the value of an existing key, adds the key otherwise. -/
def g_hash_table_insert : SubnetTable → String → Nat → SubnetTable
  | [], key, val => [(key, val)]
  | (k, v) :: rest, key, val =>
    if k = key then (k, val) :: rest else (k, v) :: g_hash_table_insert rest key val

/-- `select_subnet`: the returned `guint` and the context afterwards.  `next_subnet++` on a
`guint8` is the increment modulo 256, and it happens before `val` is tested. -/
def select_subnet (context : Context) (sysfs_path : String) : Nat × Context :=
  let val := g_hash_table_lookup context.subnets sysfs_path
  if val = 0 then
    let val := context.next_subnet
    let context := { context with next_subnet := (context.next_subnet + 1) % 256 }
    if val = 0 then
      (val, context)
    else
      (val, { context with subnets := g_hash_table_insert context.subnets sysfs_path val })
  else
    (val, context)

/-- The context `main` sets up: `memset` to zero, an empty table, `next_subnet = 1`, and the
options `process_input_args` stores. -/
def initial_context (vid pid : Nat) (interface : String) : Context :=
  { vid := vid, pid := pid, interface := interface, tracked_devices := [],
    next_subnet := 1, subnets := [] }

/-! ## Device tracking -/

/-- `device_free`: removes the timeout source when `timeout_id` is set and drops the
`libusb_device` reference when there is one. -/
def device_free (device : Device) : List Effect :=
  (if device.timeout_id ≠ 0 then [Effect.source_remove device.timeout_id] else []) ++
  (if device.usb_device.isSome then [Effect.unref_device] else [])

/-- The search loop of `find_device` over the list: the position of the first link whose
device has the given `sysfs_path` (`g_strcmp0 (...) == 0`), `none` for `NULL`. -/
def find_link : List Device → String → Option Nat
  | [], _ => none
  | d :: rest, sysfs_path =>
    if d.sysfs_path = sysfs_path then some 0 else (find_link rest sysfs_path).map (· + 1)

/-- `find_device`. -/
def find_device (context : Context) (sysfs_path : String) : Option Nat :=
  find_link context.tracked_devices sysfs_path

/-- `g_list_delete_link`: removes the node at the given position. -/
def g_list_delete_link (list : List Device) (link : Nat) : List Device :=
  list.eraseIdx link

/-- `untrack_device`. -/
def untrack_device (context : Context) (sysfs_path : String) : Context × List Effect :=
  match find_device context sysfs_path with
  | none => (context, [])
  | some l =>
    match context.tracked_devices.get? l with
    | none => (context, [])
    | some device =>
      ({ context with tracked_devices := g_list_delete_link context.tracked_devices l },
       device_free device)

/-- The loop of `find_usb_device` over the libusb device list. -/
def find_usb_device_loop : List (Nat × Nat) → Nat → Nat → Option (Nat × Nat)
  | [], _, _ => none
  | (bus, addr) :: rest, busnum, devnum =>
    if bus = busnum ∧ addr = devnum then some (bus, addr)
    else find_usb_device_loop rest busnum devnum

/-- `find_usb_device`: `NULL` when the enumeration gives nothing or no entry matches. -/
def find_usb_device (env : UsbEnv) (busnum devnum : Nat) : Option (Nat × Nat) :=
  if env.devices = [] then none else find_usb_device_loop env.devices busnum devnum

/-- The `AOA_GET_PROTOCOL` control transfer of the probe: vendor type, device to host,
two bytes, no timeout. -/
def get_protocol_transfer : ControlTransfer :=
  { bmRequestType := REQUEST_TYPE_VENDOR_IN, bRequest := AOA_GET_PROTOCOL, wValue := 0,
    wIndex := 0, data := "", wLength := 2, timeout := 0 }

/-- `device_probe_aoa`: the result, the device afterwards (the handle is set once
`libusb_open` succeeded) and what was done. -/
def device_probe_aoa (device : Device) (env : UsbEnv) : Bool × Device × List Effect :=
  let open_effect := Effect.usb_open device.busnum device.devnum
  if env.open_ret < 0 then
    (false, device, [open_effect])
  else
    let device := { device with usb_handle := true }
    if env.driver_active ≠ 0 then
      if env.detach_ret < 0 then
        (false, device, [open_effect, Effect.kernel_driver_active, Effect.detach_kernel_driver])
      else if env.get_protocol_ret < 0 then
        (false, device, [open_effect, Effect.kernel_driver_active, Effect.detach_kernel_driver,
                         Effect.control_transfer get_protocol_transfer])
      else
        (true, device, [open_effect, Effect.kernel_driver_active, Effect.detach_kernel_driver,
                        Effect.control_transfer get_protocol_transfer])
    else if env.get_protocol_ret < 0 then
      (false, device, [open_effect, Effect.kernel_driver_active,
                       Effect.control_transfer get_protocol_transfer])
    else
      (true, device, [open_effect, Effect.kernel_driver_active,
                      Effect.control_transfer get_protocol_transfer])

/-- The record `g_slice_new0 (Device)` gives once `track_device` has filled in its
arguments: every other field is zero. -/
def new_device (aoa_device : Bool) (sysfs_path : String) (vid pid busnum devnum : Nat) :
    Device :=
  { vid := vid, pid := pid, busnum := busnum, devnum := devnum, sysfs_path := sysfs_path,
    aoa := aoa_device, timeout_id := 0, usb_device := none, usb_handle := false, subnet := 0,
    tun_name := "", tun_fd := 0, halt := false, conn_thread := false, tun_thread := false,
    acc_thread := false, source_attached := false }

/-- `track_device`.  The arguments `vid`, `pid` are `guint16` and `busnum`, `devnum` are
`guint`: callers convert. -/
def track_device (context : Context) (aoa_device : Bool) (sysfs_path : String)
    (vid pid busnum devnum : Nat) (env : UsbEnv) : Context × List Effect :=
  if (find_device context sysfs_path).isSome then
    (context, [])
  else
    match find_usb_device env busnum devnum with
    | none =>
      (context, Effect.get_device_list ::
        device_free (new_device aoa_device sysfs_path vid pid busnum devnum))
    | some usb_device =>
      let device :=
        { new_device aoa_device sysfs_path vid pid busnum devnum with
          usb_device := some usb_device }
      if aoa_device = false then
        let r := device_probe_aoa device env
        if r.1 = false then
          (context, Effect.get_device_list :: (r.2.2 ++ device_free r.2.1))
        else
          ({ context with
               tracked_devices :=
                 { r.2.1 with timeout_id := env.source_id, source_attached := true } ::
                   context.tracked_devices },
           Effect.get_device_list :: (r.2.2 ++
             [Effect.timeout_add TIMEOUT_AFTER_PROTOCOL_PROBE_MS SetupKind.setup_aoa sysfs_path]))
      else
        ({ context with
             tracked_devices :=
               { device with timeout_id := env.source_id, source_attached := true } ::
                 context.tracked_devices },
         [Effect.get_device_list,
          Effect.timeout_add TIMEOUT_AFTER_PROTOCOL_PROBE_MS SetupKind.setup_tethering
            sysfs_path])

/-- The loop of `device_added` over `aoa_pids`: the first matching entry calls
`track_device` with `aoa_device = TRUE` and leaves the loop. -/
def device_added_aoa_loop (context : Context) (pids : List Nat) (sysfs_path : String)
    (vid pid busnum devnum : Nat) (env : UsbEnv) : Context × List Effect :=
  match pids with
  | [] => (context, [])
  | x :: rest =>
    if pid = x then
      track_device context true sysfs_path (vid % 65536) (pid % 65536)
        (busnum % 2 ^ 32) (devnum % 2 ^ 32) env
    else
      device_added_aoa_loop context rest sysfs_path vid pid busnum devnum env

/-- `device_added`. -/
def device_added (context : Context) (device : UdevDevice) (env : UsbEnv) :
    Context × List Effect :=
  let vid := device.idVendor
  let pid := device.idProduct
  if vid = 0 ∨ pid = 0 then (context, [])
  else
    let busnum := device.busnum
    let devnum := device.devnum
    if busnum = 0 ∨ devnum = 0 then (context, [])
    else
      match device.sysfs_path with
      | none => (context, [])
      | some sysfs_path =>
        let r1 :=
          if vid = context.vid ∧ (pid = context.pid ∨ context.pid = 0) then
            track_device context false sysfs_path (vid % 65536) (pid % 65536)
              (busnum % 2 ^ 32) (devnum % 2 ^ 32) env
          else (context, [])
        let r2 :=
          if vid = AOA_ACCESSORY_VID then
            device_added_aoa_loop r1.1 aoa_pids sysfs_path vid pid busnum devnum env
          else (r1.1, [])
        (r2.1, r1.2 ++ r2.2)

/-- `device_removed`. -/
def device_removed (context : Context) (device : UdevDevice) : Context × List Effect :=
  match device.sysfs_path with
  | none => (context, [])
  | some sysfs_path => untrack_device context sysfs_path

/-! ## Deferred setup callbacks -/

/-- `strlen` of a C string held as a `String`: its length in bytes. -/
def strlen (s : String) : Nat := s.utf8ByteSize

/-- An `AOA_SEND_IDENT` control transfer: vendor type, host to device, `wValue` 0, the
NUL-terminated string as payload (`strlen + 1` bytes), no timeout. -/
def send_ident (string_id : Nat) (s : String) : ControlTransfer :=
  { bmRequestType := REQUEST_TYPE_VENDOR_OUT, bRequest := AOA_SEND_IDENT, wValue := 0,
    wIndex := string_id, data := s, wLength := strlen s + 1, timeout := 0 }

/-- The `AOA_START_ACCESSORY` control transfer: `NULL` buffer of length 0. -/
def start_accessory : ControlTransfer :=
  { bmRequestType := REQUEST_TYPE_VENDOR_OUT, bRequest := AOA_START_ACCESSORY, wValue := 0,
    wIndex := 0, data := "", wLength := 0, timeout := 0 }

/-- The `out:` label of `device_setup_aoa`: `g_clear_pointer (&device->usb_handle,
libusb_close)` closes the handle when it is set. -/
def device_setup_aoa_out (context : Context) (device : Device) (issued : List ControlTransfer) :
    Context × Device × List Effect :=
  (context, { device with usb_handle := false },
   issued.map Effect.control_transfer ++ (if device.usb_handle then [Effect.usb_close] else []))

/-- `device_setup_aoa`.  `rets i` is the return value of the `i`-th control transfer the
function issues (counting from 0).  `device->subnet` is a `guint8`. -/
def device_setup_aoa (context : Context) (device : Device) (rets : Nat → Int) :
    Context × Device × List Effect :=
  let device := { device with timeout_id := 0 }
  let r := select_subnet context device.sysfs_path
  let context := r.2
  let device := { device with subnet := r.1 % 256 }
  if device.subnet = 0 then
    device_setup_aoa_out context device []
  else
    let device_address := "10.11." ++ toString device.subnet ++ ".2"
    let t0 := send_ident AOA_STRING_MAN_ID default_manufacturer
    if rets 0 < 0 then device_setup_aoa_out context device [t0] else
    let t1 := send_ident AOA_STRING_MOD_ID default_model
    if rets 1 < 0 then device_setup_aoa_out context device [t0, t1] else
    let t2 := send_ident AOA_STRING_DSC_ID default_description
    if rets 2 < 0 then device_setup_aoa_out context device [t0, t1, t2] else
    let t3 := send_ident AOA_STRING_VER_ID default_version
    if rets 3 < 0 then device_setup_aoa_out context device [t0, t1, t2, t3] else
    let t4 := send_ident AOA_STRING_URL_ID default_url
    if rets 4 < 0 then device_setup_aoa_out context device [t0, t1, t2, t3, t4] else
    let t5 := send_ident AOA_STRING_SER_ID device_address
    if rets 5 < 0 then device_setup_aoa_out context device [t0, t1, t2, t3, t4, t5] else
    let t6 := start_accessory
    device_setup_aoa_out context device [t0, t1, t2, t3, t4, t5, t6]

/-- `device_setup_tethering`: the connection thread is created only for a non-zero subnet. -/
def device_setup_tethering (context : Context) (device : Device) :
    Context × Device × List Effect :=
  let r := select_subnet context device.sysfs_path
  let context := r.2
  let device := { device with subnet := r.1 % 256 }
  if device.subnet ≠ 0 then
    (context, { device with conn_thread := true }, [Effect.thread_new_conn device.sysfs_path])
  else
    (context, device, [])

/-- `quit_cb`: sets `halt` on every tracked device. -/
def quit_cb (context : Context) : Context :=
  { context with tracked_devices := context.tracked_devices.map fun d => { d with halt := true } }

/-! ## The event loop as a transition system -/

/-- What the main loop dispatches: a udev `add` or `remove` event (`handle_uevent`), the
timeout source of the device with the given `sysfs_path` firing (with the return values of
the control transfers when the callback is `device_setup_aoa`), or a signal (`quit_cb`). -/
inductive Event
  | add (device : UdevDevice) (env : UsbEnv)
  | remove (device : UdevDevice)
  | timeout (sysfs_path : String) (rets : Nat → Int)
  | signal

/-- The callback of a device's timeout source: the source fires at most once and only
while the device is tracked (`device_free` removes it). -/
def fire_timeout (context : Context) (sysfs_path : String) (rets : Nat → Int) :
    Context × List Effect :=
  match find_device context sysfs_path with
  | none => (context, [])
  | some l =>
    match context.tracked_devices.get? l with
    | none => (context, [])
    | some device =>
      if device.source_attached then
        let device := { device with source_attached := false }
        let r :=
          if device.aoa then device_setup_tethering context device
          else device_setup_aoa context device rets
        ({ r.1 with tracked_devices := r.1.tracked_devices.set l r.2.1 }, r.2.2)
      else (context, [])

/-- One dispatch of the main loop. -/
def step (context : Context) : Event → Context × List Effect
  | Event.add device env => device_added context device env
  | Event.remove device => device_removed context device
  | Event.timeout sysfs_path rets => fire_timeout context sysfs_path rets
  | Event.signal => (quit_cb context, [])

/-- The context after a sequence of dispatches. -/
def run (context : Context) : List Event → Context
  | [] => context
  | e :: rest => run (step context e).1 rest

/-- The calls the subnet-stability property ranges over. -/
inductive ContextCall
  | select_subnet (sysfs_path : String)
  | track_device (aoa_device : Bool) (sysfs_path : String) (vid pid busnum devnum : Nat)
      (env : UsbEnv)
  | untrack_device (sysfs_path : String)

/-- The context after one call. -/
def ContextCall.apply (context : Context) : ContextCall → Context
  | ContextCall.select_subnet p => (SimpleRT.select_subnet context p).2
  | ContextCall.track_device aoa p vid pid busnum devnum env =>
    (SimpleRT.track_device context aoa p vid pid busnum devnum env).1
  | ContextCall.untrack_device p => (SimpleRT.untrack_device context p).1

/-- The context after a sequence of calls. -/
def apply_calls (context : Context) : List ContextCall → Context
  | [] => context
  | c :: rest => apply_calls (c.apply context) rest

/-- The values `select_subnet` returns for a sequence of ports, in order, and the context
afterwards. -/
def select_subnets (context : Context) : List String → List Nat × Context
  | [] => ([], context)
  | p :: rest =>
    let r := select_subnet context p
    let rs := select_subnets r.2 rest
    (r.1 :: rs.1, rs.2)

/-! ## Concrete ports used in the worked scenarios -/

/-- The sysfs path of port number `i`: `/p/1-1`, `/p/1-2`, ... -/
def port (i : Nat) : String := "/p/1-" ++ toString i

/-- The sysfs paths of the `n` ports numbered from `a`. -/
def ports (a n : Nat) : List String := (List.range' a n).map port

/-- Value of a decimal digit string, most significant digit first. -/
def decimal_value (l : List Char) : Nat := l.foldl (fun a c => 10 * a + (c.toNat - 48)) 0

/-- The context of `g-simple-rt --vid 18d1 --pid 4ee7 --interface eth0` at start-up. -/
def start_context : Context := initial_context 0x18D1 0x4EE7 "eth0"

/-- A device already in accessory mode (18d1:2d01) on bus 1, address 6, at the given port. -/
def accessory_at (sysfs_path : String) : UdevDevice :=
  { idVendor := 0x18D1, idProduct := 0x2D01, busnum := 1, devnum := 6,
    sysfs_path := some sysfs_path }

/-- Environment in which libusb lists the device at bus 1, address 6, and every call
succeeds. -/
def accessory_env : UsbEnv :=
  { devices := [(1, 6)], open_ret := 0, driver_active := 0, detach_ret := 0,
    get_protocol_ret := 0, source_id := 1 }

/-- The device is plugged in at a port and its deferred setup callback runs. -/
def plug (sysfs_path : String) : List Event :=
  [Event.add (accessory_at sysfs_path) accessory_env, Event.timeout sysfs_path (fun _ => 0)]

/-- The device is plugged in at a port, its setup callback runs, and it is unplugged. -/
def plug_unplug (sysfs_path : String) : List Event :=
  plug sysfs_path ++ [Event.remove (accessory_at sysfs_path)]

/-- The events of each port of a list being used once, in turn. -/
def plug_unplug_all : List String → List Event
  | [] => []
  | p :: rest => plug_unplug p ++ plug_unplug_all rest

/-- One accessory stays plugged in at port `/p/1-1`; a second one is plugged in and
unplugged at the ports `/p/1-2` ... `/p/1-256` in turn and is then plugged in at port
`/p/1-257`. -/
def wraparound_events : List Event :=
  plug (port 1) ++ plug_unplug_all (ports 2 255) ++ plug (port 257)

/-- The record of a tracked accessory at the given port once its setup callback has run
with the given result of `select_subnet`. -/
def plugged_device (sysfs_path : String) (val : Nat) : Device :=
  { new_device true sysfs_path 0x18D1 0x2D01 1 6 with
    usb_device := some (1, 6), timeout_id := 1, subnet := val % 256,
    conn_thread := decide (val % 256 ≠ 0) }

/-- The tracked devices have pairwise distinct `sysfs_path`s. -/
def paths_distinct (context : Context) : Prop :=
  (context.tracked_devices.map fun d => d.sysfs_path).Nodup

/-! ## The classification of an add event, in the words of the specification -/

/-- The candidate condition: `vid == target_vid` and (`target_pid == 0` or
`pid == target_pid`). -/
def candidate_condition (context : Context) (vid pid : Nat) : Prop :=
  vid = context.vid ∧ (context.pid = 0 ∨ pid = context.pid)

instance (context : Context) (vid pid : Nat) : Decidable (candidate_condition context vid pid) :=
  inferInstanceAs (Decidable (_ ∧ _))

/-- The accessory condition: `vid == 0x18D1` and `pid` is one of `0x2D00` ... `0x2D05`. -/
def accessory_condition (vid pid : Nat) : Prop :=
  vid = 0x18D1 ∧ 0x2D00 ≤ pid ∧ pid ≤ 0x2D05

instance (vid pid : Nat) : Decidable (accessory_condition vid pid) :=
  inferInstanceAs (Decidable (_ ∧ _))

/-- The AOA probe succeeds: the open succeeds, a kernel driver that is active is detached
without error, and the `AOA_GET_PROTOCOL` control transfer returns no error. -/
def probe_succeeds (env : UsbEnv) : Prop :=
  0 ≤ env.open_ret ∧ (env.driver_active ≠ 0 → 0 ≤ env.detach_ret) ∧ 0 ≤ env.get_protocol_ret

instance (env : UsbEnv) : Decidable (probe_succeeds env) :=
  inferInstanceAs (Decidable (_ ∧ _))

/-- The record of a device that has just been tracked: a candidate holds the handle the
probe opened, and the setup callback is pending. -/
def tracked_record (aoa_device : Bool) (sysfs_path : String) (vid pid busnum devnum : Nat)
    (usb_device : Nat × Nat) (source_id : Nat) : Device :=
  { new_device aoa_device sysfs_path vid pid busnum devnum with
    usb_device := some usb_device, usb_handle := !aoa_device, timeout_id := source_id,
    source_attached := true }

/-- Environment in which libusb lists the device at bus 1, address 6, and `libusb_open`
fails with `LIBUSB_ERROR_ACCESS`. -/
def open_failing_env : UsbEnv :=
  { devices := [(1, 6)], open_ret := -3, driver_active := 0, detach_ret := 0,
    get_protocol_ret := 0, source_id := 1 }

/-! ## The AOA setup sequence, in the words of the specification -/

/-- A vendor-type control-out transfer with `wValue` 0 and no timeout. -/
def vendor_out (request index : Nat) (payload : String) (length : Nat) : ControlTransfer :=
  { bmRequestType := 0x40, bRequest := request, wValue := 0, wIndex := index, data := payload,
    wLength := length, timeout := 0 }

/-- The seven transfers of the setup phase for subnet `s`: six `SEND_IDENT` (request 52)
with string ids 0 to 5, each payload with its terminating NUL, then `START_ACCESSORY`
(request 53) with no payload. -/
def setup_sequence (s : Nat) : List ControlTransfer :=
  [vendor_out 52 0 "The SimpleRT developers" 24,
   vendor_out 52 1 "gSimpleRT" 10,
   vendor_out 52 2 "Simple Reverse Tethering" 25,
   vendor_out 52 3 "1.0" 4,
   vendor_out 52 4 "https://github.com/aleksander0m/SimpleRT" 41,
   vendor_out 52 5 ("10.11." ++ toString s ++ ".2") (strlen ("10.11." ++ toString s ++ ".2") + 1),
   vendor_out 53 0 "" 0]

/-- The longest initial part of a sequence of transfers up to and including the first one
that returns a negative value; `rets i` is the value the transfer number `i` returns. -/
def through_first_negative : List ControlTransfer → (Nat → Int) → Nat → List ControlTransfer
  | [], _, _ => []
  | t :: rest, rets, i =>
    if rets i < 0 then [t] else t :: through_first_negative rest rets (i + 1)

/-- The control transfers among a list of effects, in order. -/
def control_transfers : List Effect → List ControlTransfer
  | [] => []
  | Effect.control_transfer t :: rest => t :: control_transfers rest
  | _ :: rest => control_transfers rest

/-! ## The connection thread -/

/-- What the kernel, the helper script and libusb answer during one run of
`conn_thread_func`: the return values of `open ("/dev/net/tun")` and of the `TUNSETIFF`
ioctl, the interface name the kernel writes into `ifr.ifr_name`, the return value of
`system`, and the return values of `libusb_open` and `libusb_claim_interface`. -/
structure ConnEnv where
  open_ret : Int
  ioctl_ret : Int
  ifr_name : String
  system_ret : Int
  usb_open_ret : Int
  claim_ret : Int
  deriving DecidableEq, Repr

/-- `strncpy (dst, src, n)` into a zeroed array: the first `n` bytes of the string (names
are taken to be ASCII, one byte per character). -/
def strncpy (src : String) (n : Nat) : String := String.mk (src.data.take n)

/-- The command line `conn_thread_func` builds with `g_strdup_printf`. -/
def iface_up_command (tun_name interface : String) (subnet : Nat) : String :=
  "g-simple-rt-iface-up.sh linux " ++ tun_name ++ " " ++ interface ++ " " ++
    ("10.11." ++ toString subnet ++ ".0") ++ " 30 " ++ ("10.11." ++ toString subnet ++ ".1") ++
    "\n"

/-- The `out:` label of `conn_thread_func`: closes the TUN fd when it is non-zero, and
releases the interface and closes the handle when a handle is set. -/
def conn_thread_out (device : Device) (effects : List Effect) : Device × List Effect :=
  ({ device with tun_fd := 0, usb_handle := false },
   effects ++ (if device.tun_fd ≠ 0 then [Effect.close_tun] else []) ++
     (if device.usb_handle then [Effect.release_interface, Effect.usb_close] else []))

/-- `conn_thread_func`.  Both relay workers set `halt` before they return, so `halt` is set
once they are joined. -/
def conn_thread_func (context : Context) (device : Device) (env : ConnEnv) :
    Device × List Effect :=
  let device := { device with timeout_id := 0, tun_fd := env.open_ret }
  if env.open_ret < 0 then
    conn_thread_out device [Effect.open_tun]
  else if env.ioctl_ret < 0 then
    conn_thread_out { device with tun_fd := 0 }
      [Effect.open_tun, Effect.ioctl_tunsetiff, Effect.close_tun]
  else
    let device := { device with tun_name := strncpy env.ifr_name (IFNAMSIZ - 1) }
    let cmd := iface_up_command device.tun_name context.interface device.subnet
    if env.system_ret ≠ 0 then
      conn_thread_out device [Effect.open_tun, Effect.ioctl_tunsetiff, Effect.system cmd]
    else if env.usb_open_ret < 0 then
      conn_thread_out device
        [Effect.open_tun, Effect.ioctl_tunsetiff, Effect.system cmd,
         Effect.usb_open device.busnum device.devnum]
    else
      let device := { device with usb_handle := true }
      if env.claim_ret < 0 then
        conn_thread_out device
          [Effect.open_tun, Effect.ioctl_tunsetiff, Effect.system cmd,
           Effect.usb_open device.busnum device.devnum, Effect.claim_interface]
      else
        conn_thread_out { device with halt := true }
          [Effect.open_tun, Effect.ioctl_tunsetiff, Effect.system cmd,
           Effect.usb_open device.busnum device.devnum, Effect.claim_interface,
           Effect.thread_new_tun, Effect.thread_new_acc, Effect.thread_join_tun,
           Effect.thread_join_acc]

/-- The command lines handed to `system` among a list of effects, in order. -/
def system_calls : List Effect → List String
  | [] => []
  | Effect.system cmd :: rest => cmd :: system_calls rest
  | _ :: rest => system_calls rest

/-- Blank characters: the field separators of the shell. -/
def is_blank (c : Char) : Bool := c = ' ' || c = '\t' || c = '\n'

/-- Splitting of a line into its blank-separated fields; `word` is the field being read. -/
def split_fields : List Char → List Char → List String
  | [], word => if word = [] then [] else [String.mk word]
  | c :: rest, word =>
    if is_blank c then
      if word = [] then split_fields rest [] else String.mk word :: split_fields rest []
    else split_fields rest (word ++ [c])

/-- Model of the argument vector `system` (`/bin/sh -c`) runs for a command line that has
no quoting and no shell metacharacters: the blank-separated fields of the line. -/
def shell_fields (cmd : String) : List String := split_fields cmd.data []

/-- A character the shell takes literally in a word: a letter, a digit, or one of
`.`, `_`, `-`, `:`, `@`, `+`, `,`, `/`. -/
def is_plain (c : Char) : Bool :=
  c.isAlphanum || c = '.' || c = '_' || c = '-' || c = ':' || c = '@' || c = '+' || c = ',' ||
    c = '/'

/-- A single shell word: non-empty and made of plain characters. -/
def plain_word (s : String) : Prop := s.data ≠ [] ∧ ∀ c ∈ s.data, is_plain c = true

instance (s : String) : Decidable (plain_word s) := inferInstanceAs (Decidable (_ ∧ _))

/-! ## The relay workers -/

/-- What a loop iteration decides: go round again (`continue`, or the end of the body), or
leave the loop (`break`). -/
inductive LoopControl
  | again
  | leave
  deriving DecidableEq, Repr

/-- What the environment answers during one iteration of the loop of `tun_thread_func`: the
value of `device->halt` read under the mutex, the return value of `select` and whether
`errno` is `EINTR`, the return value of `read` and the bytes it stored in `acc_buf`, and the
return value of `libusb_bulk_transfer`. -/
structure TunStep where
  halt : Bool
  select_status : Int
  select_eintr : Bool
  read_ret : Int
  read_data : List Nat
  bulk_ret : Int
  deriving DecidableEq, Repr

/-- A buffer after `data` has been stored at its start. -/
def store (buffer data : List Nat) : List Nat := data ++ buffer.drop data.length

/-- Conversion of a `gsize` to the C `int` that `libusb_bulk_transfer` takes as length. -/
def to_gint (n : Nat) : Int := ((n + 2 ^ 31) % 2 ^ 32 : Nat) - 2 ^ 31

/-- One iteration of the loop of `tun_thread_func`, from the halt check on: the content of
`acc_buf` afterwards, what was done, and whether the loop goes on.  The result of `read` is
stored in `nread`, a `gsize`. -/
def tun_thread_iteration (acc_buf : List Nat) (io : TunStep) :
    List Nat × List Effect × LoopControl :=
  if io.halt then (acc_buf, [], LoopControl.leave)
  else if io.select_status < 0 then
    if io.select_eintr then (acc_buf, [Effect.select_tun 1], LoopControl.again)
    else (acc_buf, [Effect.select_tun 1], LoopControl.leave)
  else if io.select_status = 0 then (acc_buf, [Effect.select_tun 1], LoopControl.again)
  else
    let nread : Nat := (io.read_ret % 2 ^ 64).toNat
    let acc_buf := if 0 < io.read_ret then store acc_buf io.read_data else acc_buf
    if nread > 0 then
      let transfer : BulkTransfer :=
        { endpoint := AOA_ACCESSORY_EP_OUT, buffer := acc_buf, length := to_gint nread,
          timeout := ACC_TIMEOUT }
      if io.bulk_ret < 0 then
        if io.bulk_ret = LIBUSB_ERROR_TIMEOUT then
          (acc_buf, [Effect.select_tun 1, Effect.read_tun ACC_BUFFER_SIZE,
                     Effect.bulk_transfer transfer], LoopControl.again)
        else
          (acc_buf, [Effect.select_tun 1, Effect.read_tun ACC_BUFFER_SIZE,
                     Effect.bulk_transfer transfer], LoopControl.leave)
      else
        (acc_buf, [Effect.select_tun 1, Effect.read_tun ACC_BUFFER_SIZE,
                   Effect.bulk_transfer transfer], LoopControl.again)
    else if nread < 0 then
      (acc_buf, [Effect.select_tun 1, Effect.read_tun ACC_BUFFER_SIZE], LoopControl.leave)
    else
      (acc_buf, [Effect.select_tun 1, Effect.read_tun ACC_BUFFER_SIZE], LoopControl.leave)

/-- `tun_thread_func` over the answers of the environment, one per iteration: what was done
and the value of `halt` the worker leaves, or `none` when the loop is still running after
the last answer.  The worker sets `halt` when it leaves the loop. -/
def tun_thread_func : List Nat → List TunStep → Option (List Effect × Bool)
  | _, [] => none
  | acc_buf, io :: rest =>
    match tun_thread_iteration acc_buf io with
    | (_, effects, LoopControl.leave) => some (effects, true)
    | (acc_buf, effects, LoopControl.again) =>
      match tun_thread_func acc_buf rest with
      | none => none
      | some (more, halt) => some (effects ++ more, halt)

/-- The bulk transfers among a list of effects, in order. -/
def bulk_transfers : List Effect → List BulkTransfer
  | [] => []
  | Effect.bulk_transfer t :: rest => t :: bulk_transfers rest
  | _ :: rest => bulk_transfers rest

/-- The bytes a bulk OUT transfer sends: the first `length` bytes of the buffer. -/
def BulkTransfer.data (t : BulkTransfer) : List Nat := t.buffer.take t.length.toNat

/-- Environment in which the kernel creates `tun0` and every call of `conn_thread_func`
succeeds. -/
def tun0_env : ConnEnv :=
  { open_ret := 3, ioctl_ret := 0, ifr_name := "tun0", system_ret := 0, usb_open_ret := 0,
    claim_ret := 0 }

/-- Environment in which the kernel creates `tun0` and the helper script exits with
status 1 (`system` returns 256). -/
def helper_failing_env : ConnEnv :=
  { open_ret := 3, ioctl_ret := 0, ifr_name := "tun0", system_ret := 256, usb_open_ret := 0,
    claim_ret := 0 }

/-! ## The USB to TUN worker -/

/-- What the environment answers during one iteration of the loop of `acc_thread_func`: the
value of `device->halt` read under the mutex, the return value of `libusb_bulk_transfer`,
the value it stores in `transferred` and the bytes it stored in `acc_buf`, and the return
value of `write`. -/
structure AccStep where
  halt : Bool
  bulk_ret : Int
  transferred : Int
  bulk_data : List Nat
  write_ret : Int
  deriving DecidableEq, Repr

/-- Conversion of the C `int` `transferred` to the `size_t` count that `write` takes. -/
def to_gsize (n : Int) : Nat := (n % 2 ^ 64).toNat

/-- One iteration of the loop of `acc_thread_func`, from the halt check on: the content of
`acc_buf` afterwards, what was done, and whether the loop goes on.  The bulk IN transfer
gets the whole buffer (`sizeof (acc_buf)`); `write` gets the first `transferred` bytes. -/
def acc_thread_iteration (acc_buf : List Nat) (io : AccStep) :
    List Nat × List Effect × LoopControl :=
  if io.halt then (acc_buf, [], LoopControl.leave)
  else
    let transfer : BulkTransfer :=
      { endpoint := AOA_ACCESSORY_EP_IN, buffer := acc_buf, length := ACC_BUFFER_SIZE,
        timeout := ACC_TIMEOUT }
    let acc_buf := store acc_buf io.bulk_data
    if io.bulk_ret < 0 then
      if io.bulk_ret = LIBUSB_ERROR_TIMEOUT then
        (acc_buf, [Effect.bulk_transfer transfer], LoopControl.again)
      else
        (acc_buf, [Effect.bulk_transfer transfer], LoopControl.leave)
    else if io.write_ret < 0 then
      (acc_buf, [Effect.bulk_transfer transfer,
                 Effect.write_tun (acc_buf.take (to_gsize io.transferred))], LoopControl.leave)
    else
      (acc_buf, [Effect.bulk_transfer transfer,
                 Effect.write_tun (acc_buf.take (to_gsize io.transferred))], LoopControl.again)

/-- `acc_thread_func` over the answers of the environment, one per iteration: what was done
and the value of `halt` the worker leaves, or `none` when the loop is still running after
the last answer.  The worker sets `halt` when it leaves the loop. -/
def acc_thread_func : List Nat → List AccStep → Option (List Effect × Bool)
  | _, [] => none
  | acc_buf, io :: rest =>
    match acc_thread_iteration acc_buf io with
    | (_, effects, LoopControl.leave) => some (effects, true)
    | (acc_buf, effects, LoopControl.again) =>
      match acc_thread_func acc_buf rest with
      | none => none
      | some (more, halt) => some (effects ++ more, halt)

/-- The data of the writes to the TUN fd among a list of effects, in order. -/
def tun_writes : List Effect → List (List Nat)
  | [] => []
  | Effect.write_tun data :: rest => data :: tun_writes rest
  | _ :: rest => tun_writes rest

/-! ## The two workers of a device and its halt flag -/

/-- The relay of one device: the shared `halt` flag, whether each worker is still in its
loop, and each worker's `acc_buf`. -/
structure RelayState where
  halt : Bool
  tun_running : Bool
  acc_running : Bool
  tun_buf : List Nat
  acc_buf : List Nat
  deriving DecidableEq, Repr

/-- What happens next in the relay: a worker runs one loop iteration, starting with its halt
check (the flag is read from the state, the `halt` field of the answers is not used), or a
signal arrives and `quit_cb` sets `halt`. -/
inductive RelayEvent
  | tun (io : TunStep)
  | acc (io : AccStep)
  | signal
  deriving DecidableEq, Repr

/-- One step of the relay.  A worker that leaves its loop sets `halt` and returns; a worker
that has returned does nothing more. -/
def relay_step (s : RelayState) : RelayEvent → RelayState × List Effect
  | RelayEvent.tun io =>
    if s.tun_running then
      match tun_thread_iteration s.tun_buf { io with halt := s.halt } with
      | (buf, effects, LoopControl.leave) =>
        ({ s with tun_buf := buf, tun_running := false, halt := true }, effects)
      | (buf, effects, LoopControl.again) => ({ s with tun_buf := buf }, effects)
    else (s, [])
  | RelayEvent.acc io =>
    if s.acc_running then
      match acc_thread_iteration s.acc_buf { io with halt := s.halt } with
      | (buf, effects, LoopControl.leave) =>
        ({ s with acc_buf := buf, acc_running := false, halt := true }, effects)
      | (buf, effects, LoopControl.again) => ({ s with acc_buf := buf }, effects)
    else (s, [])
  | RelayEvent.signal => ({ s with halt := true }, [])

/-- The relay after a sequence of steps, and everything done on the way. -/
def relay_run (s : RelayState) : List RelayEvent → RelayState × List Effect
  | [] => (s, [])
  | e :: rest =>
    let r := relay_step s e
    let rs := relay_run r.1 rest
    (rs.1, r.2 ++ rs.2)

/-- The relay when `conn_thread_func` has created both workers: `halt` is false (the record
comes from `g_slice_new0`), the buffers hold whatever the stack holds. -/
def relay_start (tun_buf acc_buf : List Nat) : RelayState :=
  { halt := false, tun_running := true, acc_running := true, tun_buf := tun_buf,
    acc_buf := acc_buf }

/-- The device record right after `conn_thread_func` has created the two relay workers, both
`GThread` pointers stored and neither yet taken by `g_clear_pointer` (which stores `NULL` in
the field before it calls `g_thread_join`); `none` when the function leaves before that. -/
def conn_thread_relaying (device : Device) (env : ConnEnv) : Option Device :=
  if env.open_ret < 0 then none
  else if env.ioctl_ret < 0 then none
  else if env.system_ret ≠ 0 then none
  else if env.usb_open_ret < 0 then none
  else if env.claim_ret < 0 then none
  else
    some { device with
      timeout_id := 0, tun_fd := env.open_ret,
      tun_name := strncpy env.ifr_name (IFNAMSIZ - 1), usb_handle := true,
      tun_thread := true, acc_thread := true }

/-- The context while the connection thread of the device tracked at the given port is at
that point (the thread was created by `device_setup_tethering`). -/
def relay_started (context : Context) (sysfs_path : String) (env : ConnEnv) : Context :=
  match find_device context sysfs_path with
  | none => context
  | some l =>
    match context.tracked_devices.get? l with
    | none => context
    | some device =>
      if device.conn_thread then
        match conn_thread_relaying device env with
        | none => context
        | some relaying =>
          { context with tracked_devices := context.tracked_devices.set l relaying }
      else context

/-! ## Reset mode -/

/-- What the kernel answers during one `reset_device` call: the return value of `open`, the
return value of the `USBDEVFS_RESET` ioctl, and whether `errno` is `ENODEV` after it. -/
structure ResetEnv where
  open_ret : Int
  ioctl_ret : Int
  errno_enodev : Bool
  deriving DecidableEq, Repr

/-- What `reset_device` does to its environment. -/
inductive ResetAction
  | open_wronly (path : String)
  | ioctl_reset
  | close
  deriving DecidableEq, Repr

/-- What `initial_list_reset` reports at the end: the error, or the total. -/
inductive ResetReport
  | no_devices_reset
  | total (n_resets : Nat)
  deriving DecidableEq, Repr

/-- The conversion `%03u`: decimal, padded with zeros on the left to at least 3 digits. -/
def pad3 (n : Nat) : String :=
  String.mk (List.replicate (3 - (toString n).length) '0') ++ toString n

/-- The path `reset_device` builds with `g_strdup_printf`. -/
def reset_path (busnum devnum : Nat) : String :=
  "/dev/bus/usb/" ++ pad3 busnum ++ "/" ++ pad3 devnum

/-- `reset_device`: whether the device was reset, and what was done. -/
def reset_device (busnum devnum : Nat) (env : ResetEnv) : Bool × List ResetAction :=
  if env.open_ret > -1 then
    if env.ioctl_ret < 0 ∧ env.errno_enodev = false then
      (false, [ResetAction.open_wronly (reset_path busnum devnum), ResetAction.ioctl_reset,
               ResetAction.close])
    else
      (true, [ResetAction.open_wronly (reset_path busnum devnum), ResetAction.ioctl_reset,
              ResetAction.close])
  else
    (false, [ResetAction.open_wronly (reset_path busnum devnum)])

/-- The loop `for (i = 0; i < G_N_ELEMENTS (aoa_pids); i++) if (pid == aoa_pids[i]) break;`:
the value of `i` after it. -/
def aoa_pid_search : List Nat → Nat → Nat → Nat
  | [], _, i => i
  | x :: rest, pid, i => if pid = x then i else aoa_pid_search rest pid (i + 1)

/-- The loop of `initial_list_reset` over the enumerated devices, each with what the kernel
answers if it is reset: `n_resets` (a `guint`) afterwards, and what was done.  The `gulong`
bus and device numbers are converted to `guint` at the call of `reset_device`. -/
def initial_list_reset_loop : List (UdevDevice × ResetEnv) → Nat → Nat × List ResetAction
  | [], n_resets => (n_resets, [])
  | (device, env) :: rest, n_resets =>
    if device.idVendor ≠ AOA_ACCESSORY_VID then initial_list_reset_loop rest n_resets
    else if aoa_pid_search aoa_pids device.idProduct 0 = aoa_pids.length then
      initial_list_reset_loop rest n_resets
    else if device.busnum = 0 ∨ device.devnum = 0 then initial_list_reset_loop rest n_resets
    else
      let r := reset_device (device.busnum % 2 ^ 32) (device.devnum % 2 ^ 32) env
      let n_resets := if r.1 then (n_resets + 1) % 2 ^ 32 else n_resets
      let rs := initial_list_reset_loop rest n_resets
      (rs.1, r.2 ++ rs.2)

/-- `initial_list_reset`: the final report and what was done. -/
def initial_list_reset (devices : List (UdevDevice × ResetEnv)) :
    ResetReport × List ResetAction :=
  let r := initial_list_reset_loop devices 0
  if r.1 = 0 then (ResetReport.no_devices_reset, r.2) else (ResetReport.total r.1, r.2)

/-- The paths opened among a list of actions, in order. -/
def opened_paths : List ResetAction → List String
  | [] => []
  | ResetAction.open_wronly path :: rest => path :: opened_paths rest
  | _ :: rest => opened_paths rest

/-- A device that reset mode selects, in the words of the specification: `idVendor` is
`0x18D1`, `idProduct` is one of `0x2D00` ... `0x2D05`, and `busnum`, `devnum` are
non-zero. -/
def reset_selected (x : UdevDevice × ResetEnv) : Bool :=
  decide (x.1.idVendor = 0x18D1 ∧ 0x2D00 ≤ x.1.idProduct ∧ x.1.idProduct ≤ 0x2D05 ∧
    x.1.busnum ≠ 0 ∧ x.1.devnum ≠ 0)

/-- The reset of a device counts: the open succeeded and the ioctl succeeded or failed with
`ENODEV`. -/
def reset_counts (x : UdevDevice × ResetEnv) : Bool :=
  decide (0 ≤ x.2.open_ret ∧ (0 ≤ x.2.ioctl_ret ∨ x.2.errno_enodev = true))

/-! ## Concrete inputs of the worked scenarios of the relay and of the setup phase -/

/-- An iteration of the TUN to USB worker in which `select` reports the fd readable, `read`
returns 100 bytes and the bulk OUT transfer returns the given value. -/
def tun_reads_100 (bulk_ret : Int) : TunStep :=
  { halt := false, select_status := 1, select_eintr := false, read_ret := 100,
    read_data := List.replicate 100 69, bulk_ret := bulk_ret }

/-- An iteration of the USB to TUN worker in which the bulk IN transfer returns the given
value without data. -/
def acc_bulk_returns (bulk_ret : Int) : AccStep :=
  { halt := false, bulk_ret := bulk_ret, transferred := 0, bulk_data := [], write_ret := 0 }

/-- An iteration of the USB to TUN worker in which the bulk IN transfer delivers 60 bytes
and `write` returns the given value. -/
def acc_receives_60 (write_ret : Int) : AccStep :=
  { halt := false, bulk_ret := 0, transferred := 60, bulk_data := List.replicate 60 69,
    write_ret := write_ret }

/-- An iteration of the TUN to USB worker in which `select` reports the fd readable and
`read` returns the given value without data; the bulk OUT transfer, if one is issued,
returns 0. -/
def tun_read_returns (read_ret : Int) : TunStep :=
  { halt := false, select_status := 1, select_eintr := false, read_ret := read_ret,
    read_data := [], bulk_ret := 0 }

/-! ## Reset mode, in the words of the specification -/

/-- A number in decimal, padded with zeros on the left to 3 digits, in the words of the
specification: below 1000 the hundreds, tens and units digit; from 1000 on the decimal digits
of the number, most significant first. -/
def padded_decimal (n : Nat) : String :=
  if n < 1000 then
    String.mk [Nat.digitChar (n / 100), Nat.digitChar (n / 10 % 10), Nat.digitChar (n % 10)]
  else String.mk ((Nat.digits 10 n).reverse.map Nat.digitChar)

/-- The device node of a USB device, in the words of the specification:
`/dev/bus/usb/<bus>/<addr>`, both numbers padded to 3 decimal digits. -/
def usb_device_path (bus addr : Nat) : String :=
  "/dev/bus/usb/" ++ padded_decimal bus ++ "/" ++ padded_decimal addr

/-- A reset attempt on a device, in the words of the specification: its device node is
opened write-only and, when the open succeeded, the USB-reset ioctl is issued on it (and the
fd is closed). -/
def reset_attempt (x : UdevDevice × ResetEnv) : List ResetAction :=
  ResetAction.open_wronly (usb_device_path x.1.busnum x.1.devnum) ::
    (if 0 ≤ x.2.open_ret then [ResetAction.ioctl_reset, ResetAction.close] else [])

/-- Enumerated devices of a worked scenario of reset mode, each with what the kernel answers:
an accessory (18d1:2d00) at bus 2, address 3, whose reset succeeds; a root hub of another
vendor; an accessory (18d1:2d05) at bus 10, address 127, whose ioctl fails with `ENODEV`; a
device of the accessory vendor with another product id; an accessory (18d1:2d01) at bus 1,
address 13, whose device node cannot be opened; an accessory (18d1:2d03) at bus 3, address 64,
whose ioctl fails with another error; an accessory (18d1:2d02) without a bus number. -/
def reset_scenario : List (UdevDevice × ResetEnv) :=
  [({ idVendor := 0x18D1, idProduct := 0x2D00, busnum := 2, devnum := 3, sysfs_path := none },
    { open_ret := 3, ioctl_ret := 0, errno_enodev := false }),
   ({ idVendor := 0x1D6B, idProduct := 0x0002, busnum := 1, devnum := 1, sysfs_path := none },
    { open_ret := 3, ioctl_ret := 0, errno_enodev := false }),
   ({ idVendor := 0x18D1, idProduct := 0x2D05, busnum := 10, devnum := 127,
      sysfs_path := none },
    { open_ret := 3, ioctl_ret := -1, errno_enodev := true }),
   ({ idVendor := 0x18D1, idProduct := 0x4EE7, busnum := 1, devnum := 5, sysfs_path := none },
    { open_ret := 3, ioctl_ret := 0, errno_enodev := false }),
   ({ idVendor := 0x18D1, idProduct := 0x2D01, busnum := 1, devnum := 13, sysfs_path := none },
    { open_ret := -1, ioctl_ret := 0, errno_enodev := false }),
   ({ idVendor := 0x18D1, idProduct := 0x2D03, busnum := 3, devnum := 64, sysfs_path := none },
    { open_ret := 3, ioctl_ret := -1, errno_enodev := false }),
   ({ idVendor := 0x18D1, idProduct := 0x2D02, busnum := 0, devnum := 9, sysfs_path := none },
    { open_ret := 3, ioctl_ret := 0, errno_enodev := false })]

/-! ## Subnet table lemmas -/

theorem lookup_insert_self (t : SubnetTable) (k : String) (v : Nat) :
    g_hash_table_lookup (g_hash_table_insert t k v) k = v := by
  induction t with
  | nil => simp [g_hash_table_insert, g_hash_table_lookup]
  | cons e rest ih =>
    obtain ⟨k0, v0⟩ := e
    by_cases hk : k0 = k
    · simp [g_hash_table_insert, g_hash_table_lookup, hk]
    · simp [g_hash_table_insert, g_hash_table_lookup, hk, ih]

theorem lookup_insert_other (t : SubnetTable) (k q : String) (v : Nat) (hq : k ≠ q) :
    g_hash_table_lookup (g_hash_table_insert t k v) q = g_hash_table_lookup t q := by
  induction t with
  | nil => simp [g_hash_table_insert, g_hash_table_lookup, hq]
  | cons e rest ih =>
    obtain ⟨k0, v0⟩ := e
    by_cases hk : k0 = k
    · subst hk
      simp [g_hash_table_insert, g_hash_table_lookup, hq]
    · by_cases hk2 : k0 = q
      · subst hk2
        simp [g_hash_table_insert, g_hash_table_lookup, hk]
      · simp [g_hash_table_insert, g_hash_table_lookup, hk, hk2, ih]

/-- A non-zero result of `select_subnet` is the table entry of the port afterwards. -/
theorem select_subnet_lookup (context : Context) (p : String)
    (h : (select_subnet context p).1 ≠ 0) :
    g_hash_table_lookup (select_subnet context p).2.subnets p = (select_subnet context p).1 := by
  unfold select_subnet at h ⊢
  by_cases h1 : g_hash_table_lookup context.subnets p = 0
  · by_cases h2 : context.next_subnet = 0
    · simp [h1, h2] at h
    · simp [h1, h2, lookup_insert_self]
  · simp [h1]

/-- A port that has a non-zero table entry gets that entry back. -/
theorem select_subnet_of_lookup (context : Context) (p : String)
    (h : g_hash_table_lookup context.subnets p ≠ 0) :
    select_subnet context p = (g_hash_table_lookup context.subnets p, context) := by
  simp [select_subnet, h]

/-- A non-zero table entry survives every `select_subnet` call. -/
theorem select_subnet_keeps_entry (context : Context) (p q : String)
    (h : g_hash_table_lookup context.subnets p ≠ 0) :
    g_hash_table_lookup (select_subnet context q).2.subnets p =
      g_hash_table_lookup context.subnets p := by
  by_cases hq : q = p
  · subst hq
    rw [select_subnet_of_lookup context q h]
  · unfold select_subnet
    by_cases h1 : g_hash_table_lookup context.subnets q = 0
    · by_cases h2 : context.next_subnet = 0
      · simp [h1, h2]
      · simp [h1, h2, lookup_insert_other _ _ _ _ hq]
    · simp [h1]

theorem track_device_subnets (context : Context) (aoa : Bool) (p : String)
    (vid pid busnum devnum : Nat) (env : UsbEnv) :
    (track_device context aoa p vid pid busnum devnum env).1.subnets = context.subnets ∧
    (track_device context aoa p vid pid busnum devnum env).1.next_subnet =
      context.next_subnet := by
  unfold track_device
  split
  · exact ⟨rfl, rfl⟩
  · split
    · exact ⟨rfl, rfl⟩
    · dsimp only
      split
      · split <;> exact ⟨rfl, rfl⟩
      · exact ⟨rfl, rfl⟩

theorem untrack_device_subnets (context : Context) (p : String) :
    (untrack_device context p).1.subnets = context.subnets ∧
    (untrack_device context p).1.next_subnet = context.next_subnet := by
  unfold untrack_device
  split
  · exact ⟨rfl, rfl⟩
  · split <;> exact ⟨rfl, rfl⟩

/-- A non-zero table entry survives every sequence of calls. -/
theorem apply_calls_keeps_entry (calls : List ContextCall) (context : Context) (p : String)
    (h : g_hash_table_lookup context.subnets p ≠ 0) :
    g_hash_table_lookup (apply_calls context calls).subnets p =
      g_hash_table_lookup context.subnets p := by
  induction calls generalizing context with
  | nil => rfl
  | cons c rest ih =>
    have hc : g_hash_table_lookup (c.apply context).subnets p =
        g_hash_table_lookup context.subnets p := by
      cases c with
      | select_subnet q => exact select_subnet_keeps_entry context p q h
      | track_device aoa q vid pid busnum devnum env =>
        simp only [ContextCall.apply]
        rw [(track_device_subnets context aoa q vid pid busnum devnum env).1]
      | untrack_device q =>
        simp only [ContextCall.apply]
        rw [(untrack_device_subnets context q).1]
    simp only [apply_calls]
    rw [ih (c.apply context) (by rw [hc]; exact h), hc]

/-! ## C1: subnet stability -/

/-- C1. Once `select_subnet` has returned a non-zero index for a port, every later
`select_subnet` call for that port returns the same index, whatever `select_subnet`,
`track_device` and `untrack_device` calls come in between; and `untrack_device` leaves the
subnets table and `next_subnet` as they were. -/
theorem subnet_stability (context : Context) (p : String) (calls : List ContextCall)
    (h : (select_subnet context p).1 ≠ 0) :
    (select_subnet (apply_calls (select_subnet context p).2 calls) p).1 =
      (select_subnet context p).1 ∧
    (∀ (c : Context) (q : String),
      (untrack_device c q).1.subnets = c.subnets ∧
      (untrack_device c q).1.next_subnet = c.next_subnet) := by
  refine ⟨?_, fun c q => untrack_device_subnets c q⟩
  have h1 := select_subnet_lookup context p h
  have h2 : g_hash_table_lookup (select_subnet context p).2.subnets p ≠ 0 := by
    rw [h1]; exact h
  have h3 := apply_calls_keeps_entry calls (select_subnet context p).2 p h2
  rw [select_subnet_of_lookup _ p (by rw [h3]; exact h2), h3, h1]

/-- Witness for C1: from the initial context, port `/p/1-1` gets subnet 1 and keeps it across
an allocation for another port, a remove and an add. -/
theorem subnet_stability_witness :
    (select_subnet (initial_context 0x18D1 0 "eth0") "/p/1-1").1 ≠ 0 ∧
    (select_subnet
      (apply_calls (select_subnet (initial_context 0x18D1 0 "eth0") "/p/1-1").2
        [ContextCall.select_subnet "/p/1-2", ContextCall.untrack_device "/p/1-1",
         ContextCall.track_device true "/p/1-1" 0x18D1 0x2D01 1 6
           { devices := [(1, 6)], open_ret := 0, driver_active := 0, detach_ret := 0,
             get_protocol_ret := 0, source_id := 7 }]) "/p/1-1").1 =
      (select_subnet (initial_context 0x18D1 0 "eth0") "/p/1-1").1 :=
  ⟨by decide, (subnet_stability (initial_context 0x18D1 0 "eth0") "/p/1-1" _ (by decide)).1⟩

/-! ## Decimal rendering of naturals (`%u`) -/

theorem digitChar_value (k : Nat) (hk : k < 10) : (Nat.digitChar k).toNat - 48 = k := by
  interval_cases k <;> rfl

theorem digitChar_isDigit (k : Nat) (hk : k < 10) : (Nat.digitChar k).isDigit = true := by
  interval_cases k <;> rfl

theorem toDigitsCore_spec (fuel : Nat) : ∀ (n : Nat) (ds : List Char), n < fuel →
    ∃ ms, Nat.toDigitsCore 10 fuel n ds = ms ++ ds ∧ decimal_value ms = n ∧
      ms ≠ [] ∧ ∀ c ∈ ms, c.isDigit = true := by
  induction fuel with
  | zero => intro n ds h; omega
  | succ fuel ih =>
    intro n ds h
    unfold Nat.toDigitsCore
    by_cases h0 : n / 10 = 0
    · refine ⟨[Nat.digitChar (n % 10)], by simp [h0], ?_, by simp, ?_⟩
      · simp only [decimal_value, List.foldl]
        rw [digitChar_value _ (Nat.mod_lt _ (by norm_num))]
        omega
      · intro c hc
        simp only [List.mem_singleton] at hc
        rw [hc]; exact digitChar_isDigit _ (Nat.mod_lt _ (by norm_num))
    · obtain ⟨ms, h1, h2, h3, h4⟩ := ih (n / 10) (Nat.digitChar (n % 10) :: ds) (by omega)
      refine ⟨ms ++ [Nat.digitChar (n % 10)], by simp [h0, h1], ?_, by simp, ?_⟩
      · unfold decimal_value at h2 ⊢
        rw [List.foldl_append, h2]
        simp only [List.foldl]
        rw [digitChar_value _ (Nat.mod_lt _ (by norm_num))]
        omega
      · intro c hc
        rcases List.mem_append.1 hc with hc | hc
        · exact h4 c hc
        · simp only [List.mem_singleton] at hc
          rw [hc]; exact digitChar_isDigit _ (Nat.mod_lt _ (by norm_num))

/-- The decimal rendering of a natural is a non-empty string of digits that reads back as
the number. -/
theorem toString_data (n : Nat) :
    decimal_value (toString n).data = n ∧ (toString n).data ≠ [] ∧
      ∀ c ∈ (toString n).data, c.isDigit = true := by
  obtain ⟨ms, h1, h2, h3, h4⟩ := toDigitsCore_spec (n + 1) n [] (by omega)
  have h : (toString n).data = ms := by
    show (Nat.repr n).data = ms
    unfold Nat.repr Nat.toDigits
    rw [h1]; simp [List.asString]
  rw [h]
  exact ⟨h2, h3, h4⟩

theorem toString_nat_injective (i j : Nat) (h : toString i = toString j) : i = j := by
  rw [← (toString_data i).1, ← (toString_data j).1, h]

theorem port_injective (i j : Nat) (h : port i = port j) : i = j := by
  apply toString_nat_injective
  unfold port at h
  have h2 := congrArg String.data h
  simp only [String.data_append, List.append_cancel_left_eq] at h2
  exact String.ext h2

theorem ports_nodup (a n : Nat) : (ports a n).Nodup := by
  unfold ports
  exact (List.nodup_range' a n).map (fun i j h => port_injective i j h)

theorem not_mem_ports (a n i : Nat) (h : i < a ∨ a + n ≤ i) : port i ∉ ports a n := by
  unfold ports
  intro hm
  obtain ⟨j, hj, hij⟩ := List.mem_map.1 hm
  have := port_injective _ _ hij
  rw [List.mem_range'_1] at hj
  omega

/-! ## Consecutive allocations for fresh ports -/

/-- The call `select_subnet` only touches `next_subnet` and the subnets table. -/
theorem select_subnet_frame (c : Context) (p : String) :
    (select_subnet c p).2.tracked_devices = c.tracked_devices ∧
    (select_subnet c p).2.vid = c.vid ∧ (select_subnet c p).2.pid = c.pid ∧
    (select_subnet c p).2.interface = c.interface := by
  unfold select_subnet
  by_cases h1 : g_hash_table_lookup c.subnets p = 0
  · by_cases h2 : c.next_subnet = 0
    · simp [h1, h2]
    · simp [h1, h2]
  · simp [h1]

/-- A successful allocation for an unmapped port: the counter value is returned and stored,
and the counter is incremented modulo 256. -/
theorem select_subnet_fresh (c : Context) (p : String)
    (hp : g_hash_table_lookup c.subnets p = 0) (hn : c.next_subnet ≠ 0) :
    select_subnet c p =
      (c.next_subnet,
       { c with next_subnet := (c.next_subnet + 1) % 256,
                subnets := g_hash_table_insert c.subnets p c.next_subnet }) := by
  simp [select_subnet, hp, hn]

/-- A call for an unmapped port when the counter is 0: the call fails, the table is
unchanged, and the counter moves on to 1. -/
theorem select_subnet_exhausted (c : Context) (p : String)
    (hp : g_hash_table_lookup c.subnets p = 0) (hn : c.next_subnet = 0) :
    select_subnet c p = (0, { c with next_subnet := 1 }) := by
  simp [select_subnet, hp, hn]

/-- Allocations for pairwise distinct unmapped ports, as long as the counter does not pass
255: the indices are consecutive, and no other port's entry changes. -/
theorem select_subnets_fresh (ps : List String) : ∀ (c : Context), ps.Nodup →
    (∀ p ∈ ps, g_hash_table_lookup c.subnets p = 0) → 0 < c.next_subnet →
    c.next_subnet < 256 → c.next_subnet + ps.length ≤ 256 →
    (select_subnets c ps).1 = List.range' c.next_subnet ps.length ∧
    (select_subnets c ps).2.next_subnet = (c.next_subnet + ps.length) % 256 ∧
    (select_subnets c ps).2.tracked_devices = c.tracked_devices ∧
    (∀ q, q ∉ ps → g_hash_table_lookup (select_subnets c ps).2.subnets q =
      g_hash_table_lookup c.subnets q) := by
  induction ps with
  | nil =>
    intro c _ _ _ h0 _
    refine ⟨rfl, ?_, rfl, fun q _ => rfl⟩
    simp only [select_subnets, List.length_nil, Nat.add_zero]
    rw [Nat.mod_eq_of_lt h0]
  | cons p rest ih =>
    intro c hnd hfresh hpos hlt hlen
    have hp : g_hash_table_lookup c.subnets p = 0 := hfresh p (List.mem_cons_self _ _)
    have hsel := select_subnet_fresh c p hp (by omega)
    simp only [List.length_cons] at hlen ⊢
    rcases List.eq_nil_or_concat rest with hrest | ⟨rest0, x, hrest⟩
    · subst hrest
      simp only [select_subnets, hsel, List.length_nil, Nat.zero_add, List.range'_one]
      refine ⟨trivial, trivial, trivial, ?_⟩
      intro q hq
      simp only [List.mem_singleton] at hq
      exact lookup_insert_other _ _ _ _ (fun h => hq h.symm)
    · have hrl : 0 < rest.length := by
        rw [hrest]; simp
      have hnd2 := List.nodup_cons.1 hnd
      have hmod : (c.next_subnet + 1) % 256 = c.next_subnet + 1 := Nat.mod_eq_of_lt (by omega)
      have hfresh2 : ∀ q ∈ rest, g_hash_table_lookup (select_subnet c p).2.subnets q = 0 := by
        intro q hq
        rw [hsel]
        simp only
        rw [lookup_insert_other c.subnets p q c.next_subnet (fun h => hnd2.1 (by rw [h]; exact hq))]
        exact hfresh q (List.mem_cons_of_mem _ hq)
      have hnext : (select_subnet c p).2.next_subnet = c.next_subnet + 1 := by
        rw [hsel]; exact hmod
      obtain ⟨i1, i2, i3, i4⟩ := ih (select_subnet c p).2 hnd2.2 hfresh2
        (by rw [hnext]; omega) (by rw [hnext]; omega) (by rw [hnext]; omega)
      refine ⟨?_, ?_, ?_, ?_⟩
      · simp only [select_subnets, i1, hnext, List.range'_succ]
        rw [hsel]
      · simp only [select_subnets, i2, hnext]
        congr 1; omega
      · simp only [select_subnets, i3]
        exact (select_subnet_frame c p).1
      · intro q hq
        simp only [List.mem_cons, not_or] at hq
        simp only [select_subnets]
        rw [i4 q hq.2, hsel]
        exact lookup_insert_other _ _ _ _ (fun h => hq.1 h.symm)

/-- A non-zero table entry survives every sequence of `select_subnet` calls. -/
theorem select_subnets_keeps_entry (ps : List String) : ∀ (c : Context) (p : String),
    g_hash_table_lookup c.subnets p ≠ 0 →
    g_hash_table_lookup (select_subnets c ps).2.subnets p = g_hash_table_lookup c.subnets p := by
  induction ps with
  | nil => intro c p _; rfl
  | cons q rest ih =>
    intro c p h
    have h1 := select_subnet_keeps_entry c p q h
    simp only [select_subnets]
    rw [ih (select_subnet c q).2 p (by rw [h1]; exact h), h1]

theorem select_subnets_append (ps qs : List String) : ∀ (c : Context),
    select_subnets c (ps ++ qs) =
      ((select_subnets c ps).1 ++ (select_subnets (select_subnets c ps).2 qs).1,
       (select_subnets (select_subnets c ps).2 qs).2) := by
  induction ps with
  | nil => intro c; simp [select_subnets]
  | cons p rest ih => intro c; simp [select_subnets, ih]

theorem ports_succ (a n : Nat) : ports a (n + 1) = ports a n ++ [port (a + n)] := by
  simp [ports, List.range'_concat]

theorem ports_cons (a n : Nat) : ports a (n + 1) = port a :: ports (a + 1) n := by
  simp [ports, List.range'_succ]

theorem ports_length (a n : Nat) : (ports a n).length = n := by
  unfold ports; rw [List.length_map, List.length_range']

theorem select_subnets_cons_snd (c : Context) (p : String) (rest : List String) :
    (select_subnets c (p :: rest)).2 = (select_subnets (select_subnet c p).2 rest).2 := rfl

theorem select_subnets_append_fst (ps qs : List String) (c : Context) :
    (select_subnets c (ps ++ qs)).1 =
      (select_subnets c ps).1 ++ (select_subnets (select_subnets c ps).2 qs).1 := by
  rw [select_subnets_append]

theorem select_subnets_append_snd (ps qs : List String) (c : Context) :
    (select_subnets c (ps ++ qs)).2 = (select_subnets (select_subnets c ps).2 qs).2 := by
  rw [select_subnets_append]

theorem select_subnets_single_fst (c : Context) (p : String) :
    (select_subnets c [p]).1 = [(select_subnet c p).1] := rfl

theorem select_subnets_single_snd (c : Context) (p : String) :
    (select_subnets c [p]).2 = (select_subnet c p).2 := rfl

/-- When the counter is 0, a call for an unmapped port fails and moves the counter to 1, and
the next call for an unmapped port returns 1. -/
theorem select_subnet_after_wraparound (c : Context) (p q : String) (hn : c.next_subnet = 0)
    (hp : g_hash_table_lookup c.subnets p = 0) (hq : g_hash_table_lookup c.subnets q = 0) :
    (select_subnet c p).1 = 0 ∧ (select_subnet c p).2.subnets = c.subnets ∧
    (select_subnet c p).2.next_subnet = 1 ∧
    g_hash_table_lookup (select_subnet c p).2.subnets q = 0 ∧
    (select_subnet (select_subnet c p).2 q).1 = 1 := by
  rw [select_subnet_exhausted c p hp hn]
  refine ⟨rfl, rfl, rfl, hq, ?_⟩
  rw [select_subnet_fresh { c with next_subnet := 1 } q hq (by simp)]

/-- From a context with an empty table and the counter at 1, allocations for 255 pairwise
distinct ports return 1 to 255 and leave the counter at 0; no other port has an entry, and
the first port holds index 1. -/
theorem after_255_allocations (c : Context) (p1 : String) (rest : List String)
    (hnd : (p1 :: rest).Nodup) (hlen : (p1 :: rest).length = 255)
    (hc : c.subnets = []) (hnext : c.next_subnet = 1) :
    (select_subnets c (p1 :: rest)).1 = List.range' 1 255 ∧
    (select_subnets c (p1 :: rest)).2.next_subnet = 0 ∧
    (select_subnets c (p1 :: rest)).2.tracked_devices = c.tracked_devices ∧
    (∀ q, q ∉ p1 :: rest →
      g_hash_table_lookup (select_subnets c (p1 :: rest)).2.subnets q = 0) ∧
    g_hash_table_lookup (select_subnets c (p1 :: rest)).2.subnets p1 = 1 := by
  have hempty : ∀ p, g_hash_table_lookup c.subnets p = 0 := by
    intro p; rw [hc]; rfl
  obtain ⟨h1, h2, h3, h4⟩ := select_subnets_fresh (p1 :: rest) c hnd
    (fun p _ => hempty p) (by omega) (by omega) (by omega)
  rw [hlen, hnext] at h1 h2
  refine ⟨h1, h2, h3, ?_, ?_⟩
  · intro q hq
    rw [h4 q hq]
    exact hempty _
  · rw [select_subnets_cons_snd]
    have hfirst : g_hash_table_lookup (select_subnet c p1).2.subnets p1 = 1 := by
      rw [select_subnet_fresh c p1 (hempty _) (by omega)]
      simp only [hnext]
      exact lookup_insert_self _ _ _
    rw [select_subnets_keeps_entry _ _ _ (by rw [hfirst]; omega), hfirst]

/-- The wrap-around of the counter: 255 successful allocations, one failure, then index 1
is handed out again. -/
theorem wraparound (c : Context) (p1 : String) (rest : List String) (p q : String)
    (hnd : (p1 :: rest).Nodup) (hlen : (p1 :: rest).length = 255)
    (hc : c.subnets = []) (hnext : c.next_subnet = 1)
    (hp : p ∉ p1 :: rest) (hq : q ∉ p1 :: rest) :
    (select_subnets c (p1 :: rest)).1 = List.range' 1 255 ∧
    (select_subnets c (p1 :: rest)).2.next_subnet = 0 ∧
    g_hash_table_lookup (select_subnets c (p1 :: rest)).2.subnets p1 = 1 ∧
    (select_subnet (select_subnets c (p1 :: rest)).2 p).1 = 0 ∧
    (select_subnet (select_subnets c (p1 :: rest)).2 p).2.subnets =
      (select_subnets c (p1 :: rest)).2.subnets ∧
    (select_subnet (select_subnets c (p1 :: rest)).2 p).2.next_subnet = 1 ∧
    g_hash_table_lookup (select_subnet (select_subnets c (p1 :: rest)).2 p).2.subnets q = 0 ∧
    (select_subnet (select_subnet (select_subnets c (p1 :: rest)).2 p).2 q).1 = 1 := by
  obtain ⟨h1, h2, -, h3, h4⟩ := after_255_allocations c p1 rest hnd hlen hc hnext
  exact ⟨h1, h2, h4, select_subnet_after_wraparound _ p q h2 (h3 p hp) (h3 q hq)⟩

theorem ports_1_255 : ports 1 255 = port 1 :: ports 2 254 := ports_cons 1 254

theorem ports_1_256 : ports 1 256 = port 1 :: ports 2 254 ++ [port 256] := by
  have h : ports 1 256 = ports 1 255 ++ [port 256] := ports_succ 1 255
  rw [h, ports_1_255]

/-- The ports `/p/1-1` ... `/p/1-255` are pairwise distinct, and no port with a larger
number is among them. -/
theorem ports_1_255_facts :
    (port 1 :: ports 2 254).Nodup ∧ (port 1 :: ports 2 254).length = 255 ∧
    ∀ i, 256 ≤ i → port i ∉ port 1 :: ports 2 254 := by
  rw [← ports_1_255]
  exact ⟨ports_nodup 1 255, ports_length 1 255,
    fun i hi => not_mem_ports 1 255 i (by omega)⟩

/-! ## C2: freshness of a successful allocation -/

/-- C2, evaluated on the code. From start-up, `select_subnet` is called for the 256 pairwise
distinct ports `/p/1-1` ... `/p/1-256`: the first 255 calls return 1 ... 255 and the 256th
returns 0. Port `/p/1-257` is then not in the table, the call for it succeeds, and it
returns 1: an index that an earlier successful call returned and that is still the table
entry of port `/p/1-1`. -/
theorem select_subnet_repeats_index :
    (select_subnets start_context (ports 1 256)).1 = List.range' 1 255 ++ [0] ∧
    g_hash_table_lookup (select_subnets start_context (ports 1 256)).2.subnets (port 257) = 0 ∧
    (select_subnet (select_subnets start_context (ports 1 256)).2 (port 257)).1 = 1 ∧
    g_hash_table_lookup (select_subnets start_context (ports 1 256)).2.subnets (port 1) = 1 := by
  obtain ⟨hnd, hlen, hp⟩ := ports_1_255_facts
  obtain ⟨h1, -, h3, h4, h5, -, h7, h8⟩ := wraparound start_context (port 1) (ports 2 254)
    (port 256) (port 257) hnd hlen rfl rfl (hp 256 (by omega)) (hp 257 (by omega))
  rw [ports_1_256, select_subnets_append_fst, select_subnets_append_snd,
    select_subnets_single_fst, select_subnets_single_snd, h1, h4, h5]
  rw [h5] at h7
  exact ⟨rfl, h7, h8, h3⟩

/-! ## C3: the exhaustion boundary -/

/-- C3, evaluated on the code. From start-up, 255 calls for the pairwise distinct ports
`/p/1-1` ... `/p/1-255` succeed with 1 ... 255 and leave `next_subnet` at 0. The call for the
unmapped port `/p/1-256` returns 0 and leaves the table unchanged, but it leaves
`next_subnet` at 1, not 0; the later call for the unmapped port `/p/1-257` returns 1, not
0. -/
theorem select_subnet_exhaustion_moves_counter :
    (select_subnets start_context (ports 1 255)).1 = List.range' 1 255 ∧
    (select_subnets start_context (ports 1 255)).2.next_subnet = 0 ∧
    (select_subnet (select_subnets start_context (ports 1 255)).2 (port 256)).1 = 0 ∧
    (select_subnet (select_subnets start_context (ports 1 255)).2 (port 256)).2.subnets =
      (select_subnets start_context (ports 1 255)).2.subnets ∧
    (select_subnet (select_subnets start_context (ports 1 255)).2 (port 256)).2.next_subnet
      = 1 ∧
    g_hash_table_lookup
      (select_subnet (select_subnets start_context (ports 1 255)).2 (port 256)).2.subnets
      (port 257) = 0 ∧
    (select_subnet
      (select_subnet (select_subnets start_context (ports 1 255)).2 (port 256)).2
      (port 257)).1 = 1 := by
  obtain ⟨hnd, hlen, hp⟩ := ports_1_255_facts
  obtain ⟨h1, h2, -, h4, h5, h6, h7, h8⟩ := wraparound start_context (port 1) (ports 2 254)
    (port 256) (port 257) hnd hlen rfl rfl (hp 256 (by omega)) (hp 257 (by omega))
  rw [ports_1_255]
  exact ⟨h1, h2, h4, h5, h6, h7, h8⟩

/-! ## The event loop on the wrap-around scenario -/

theorem run_append (es fs : List Event) : ∀ (c : Context),
    run c (es ++ fs) = run (run c es) fs := by
  induction es with
  | nil => intro c; rfl
  | cons e rest ih => intro c; exact ih _

/-- An accessory added at an untracked port is tracked, with its setup callback pending. -/
theorem device_added_accessory (c : Context) (p : String) (hv : c.vid = 0x18D1)
    (hpid : c.pid = 0x4EE7) (hf : find_device c p = none) :
    (device_added c (accessory_at p) accessory_env).1 =
      { c with tracked_devices :=
          { new_device true p 0x18D1 0x2D01 1 6 with
            usb_device := some (1, 6), timeout_id := 1, source_attached := true } ::
            c.tracked_devices } := by
  simp [device_added, accessory_at, hv, hpid, AOA_ACCESSORY_VID, aoa_pids, AOA_ACCESSORY_PID,
    AOA_ACCESSORY_ADB_PID, device_added_aoa_loop, track_device, hf, find_usb_device,
    find_usb_device_loop, accessory_env]

/-- The call `select_subnet` does not look at the tracked devices. -/
theorem select_subnet_with_tracked (c : Context) (l : List Device) (p : String) :
    select_subnet { c with tracked_devices := l } p =
      ((select_subnet c p).1, { (select_subnet c p).2 with tracked_devices := l }) := by
  unfold select_subnet
  by_cases h1 : g_hash_table_lookup c.subnets p = 0
  · by_cases h2 : c.next_subnet = 0
    · simp [h1, h2]
    · simp [h1, h2]
  · simp [h1]

/-- Plugging an accessory in at an untracked port and running its setup callback: the
device is tracked with the subnet `select_subnet` gives for the port. -/
theorem run_plug (c : Context) (p : String) (hv : c.vid = 0x18D1) (hpid : c.pid = 0x4EE7)
    (hf : find_device c p = none) :
    run c (plug p) =
      { (select_subnet c p).2 with
        tracked_devices := plugged_device p (select_subnet c p).1 :: c.tracked_devices } := by
  simp only [plug, run, step]
  rw [device_added_accessory c p hv hpid hf]
  simp only [fire_timeout, find_device, find_link, new_device, if_true, List.get?,
    device_setup_tethering]
  rw [select_subnet_with_tracked]
  by_cases h : (select_subnet c p).1 % 256 = 0
  · simp [h, plugged_device, new_device]
  · simp [h, plugged_device, new_device]

/-- Unplugging the device that was tracked last removes it. -/
theorem run_unplug (c : Context) (d : Device) (l : List Device) (p : String)
    (hd : d.sysfs_path = p) (hc : c.tracked_devices = d :: l) :
    run c [Event.remove (accessory_at p)] = { c with tracked_devices := l } := by
  simp [run, step, device_removed, accessory_at, untrack_device, find_device, find_link, hc, hd,
    g_list_delete_link]

/-- Using a port once (plug in, set up, unplug) leaves the context `select_subnet` gives. -/
theorem run_plug_unplug (c : Context) (p : String) (hv : c.vid = 0x18D1)
    (hpid : c.pid = 0x4EE7) (hf : find_device c p = none) :
    run c (plug_unplug p) = (select_subnet c p).2 := by
  unfold plug_unplug
  rw [run_append, run_plug c p hv hpid hf]
  rw [run_unplug _ (plugged_device p (select_subnet c p).1) c.tracked_devices p rfl rfl]
  have h := (select_subnet_frame c p).1
  cases hs : (select_subnet c p).2
  rw [hs] at h
  simp only at h ⊢
  rw [h]

/-- Using each port of a list once, none of them being tracked. -/
theorem run_plug_unplug_all (ps : List String) : ∀ (c : Context), c.vid = 0x18D1 →
    c.pid = 0x4EE7 → (∀ p ∈ ps, find_device c p = none) →
    run c (plug_unplug_all ps) = (select_subnets c ps).2 := by
  induction ps with
  | nil => intro c _ _ _; rfl
  | cons p rest ih =>
    intro c hv hpid hf
    obtain ⟨f1, f2, f3, -⟩ := select_subnet_frame c p
    simp only [plug_unplug_all]
    rw [run_append, run_plug_unplug c p hv hpid (hf p (List.mem_cons_self _ _)),
      ih (select_subnet c p).2 (by rw [f2, hv]) (by rw [f3, hpid])]
    · rfl
    · intro q hq
      have := hf q (List.mem_cons_of_mem _ hq)
      unfold find_device at this ⊢
      rw [f1]; exact this


theorem select_subnets_frame (ps : List String) : ∀ (c : Context),
    (select_subnets c ps).2.tracked_devices = c.tracked_devices ∧
    (select_subnets c ps).2.vid = c.vid ∧ (select_subnets c ps).2.pid = c.pid := by
  induction ps with
  | nil => intro c; exact ⟨rfl, rfl, rfl⟩
  | cons p rest ih =>
    intro c
    obtain ⟨f1, f2, f3, -⟩ := select_subnet_frame c p
    obtain ⟨g1, g2, g3⟩ := ih (select_subnet c p).2
    rw [select_subnets_cons_snd, g1, g2, g3, f1, f2, f3]
    exact ⟨rfl, rfl, rfl⟩

/-- One accessory stays at port `p1`, a second one uses 255 further pairwise distinct
ports in turn (the last of them, `p`, gets no subnet) and then a port `q` never seen before:
both tracked devices end up with subnet 1. -/
theorem plug_after_wraparound (c : Context) (p1 : String) (rest : List String) (p q : String)
    (hv : c.vid = 0x18D1) (hpid : c.pid = 0x4EE7) (htr : c.tracked_devices = [])
    (hc : c.subnets = []) (hnext : c.next_subnet = 1)
    (hnd : (p1 :: rest).Nodup) (hlen : (p1 :: rest).length = 255)
    (hp : p ∉ p1 :: rest) (hq : q ∉ p1 :: rest) :
    (run c (plug p1 ++ plug_unplug_all (rest ++ [p]) ++ plug q)).tracked_devices =
      [plugged_device q 1, plugged_device p1 1] := by
  have hnd2 := List.nodup_cons.1 hnd
  simp only [List.mem_cons, not_or] at hp hq
  simp only [List.length_cons] at hlen
  -- the first device
  have hsel1 : select_subnet c p1 =
      (1, { c with next_subnet := 2, subnets := [(p1, 1)] }) := by
    rw [select_subnet_fresh c p1 (by rw [hc]; rfl) (by omega), hnext, hc]
    rfl
  have h1 : run c (plug p1) =
      { c with next_subnet := 2, subnets := [(p1, 1)],
               tracked_devices := [plugged_device p1 1] } := by
    rw [run_plug c p1 hv hpid (by unfold find_device; rw [htr]; rfl), hsel1, htr]
  -- the ports used in turn
  obtain ⟨c1, hc1⟩ : ∃ c1, c1 = run c (plug p1) := ⟨_, rfl⟩
  have hc1v : c1.vid = 0x18D1 := by rw [hc1, h1]; exact hv
  have hc1p : c1.pid = 0x4EE7 := by rw [hc1, h1]; exact hpid
  have hc1t : c1.tracked_devices = [plugged_device p1 1] := by rw [hc1, h1]
  have hc1s : c1.subnets = [(p1, 1)] := by rw [hc1, h1]
  have hc1n : c1.next_subnet = 2 := by rw [hc1, h1]
  have hlook : ∀ x, x ≠ p1 → g_hash_table_lookup c1.subnets x = 0 := by
    intro x hx
    rw [hc1s]
    simp [g_hash_table_lookup, Ne.symm hx]
  have hfind : ∀ x, x ≠ p1 → find_device c1 x = none := by
    intro x hx
    unfold find_device
    rw [hc1t]
    simp [find_link, plugged_device, new_device, Ne.symm hx]
  have hne : ∀ x ∈ rest, x ≠ p1 := fun x hx h => hnd2.1 (h ▸ hx)
  obtain ⟨-, k2, -, k4⟩ := select_subnets_fresh rest c1 hnd2.2
    (fun x hx => hlook x (hne x hx)) (by omega) (by omega) (by omega)
  obtain ⟨f1, f2, f3⟩ := select_subnets_frame rest c1
  have hk2 : (select_subnets c1 rest).2.next_subnet = 0 := by
    rw [k2, hc1n]
    have : 2 + rest.length = 256 := by omega
    rw [this]
  obtain ⟨-, w2, w3, w4, w5⟩ := select_subnet_after_wraparound (select_subnets c1 rest).2 p q
    hk2 (by rw [k4 p hp.2]; exact hlook p hp.1) (by rw [k4 q hq.2]; exact hlook q hq.1)
  obtain ⟨g1, g2, g3, -⟩ := select_subnet_frame (select_subnets c1 rest).2 p
  have h2 : run c1 (plug_unplug_all (rest ++ [p])) =
      (select_subnet (select_subnets c1 rest).2 p).2 := by
    rw [run_plug_unplug_all (rest ++ [p]) c1 hc1v hc1p, select_subnets_append_snd,
      select_subnets_single_snd]
    intro x hx
    rcases List.mem_append.1 hx with hx | hx
    · exact hfind x (hne x hx)
    · simp only [List.mem_singleton] at hx
      rw [hx]; exact hfind p hp.1
  obtain ⟨c2, hc2⟩ : ∃ c2, c2 = (select_subnet (select_subnets c1 rest).2 p).2 := ⟨_, rfl⟩
  rw [← hc2] at h2 w5 g1 g2 g3
  have hc2t : c2.tracked_devices = [plugged_device p1 1] := by rw [g1, f1, hc1t]
  have h3 := run_plug c2 q (by rw [g2, f2, hc1v]) (by rw [g3, f3, hc1p])
    (by
      unfold find_device
      rw [hc2t]
      simp [find_link, plugged_device, new_device, Ne.symm hq.1])
  rw [run_append, run_append, ← hc1, h2, h3, w5, hc2t]


/-! ## C4: subnet uniqueness among tracked devices -/

/-- C4, evaluated on the code. One accessory stays plugged in at port `/p/1-1`; a second one
is plugged in and unplugged at the ports `/p/1-2` ... `/p/1-256` in turn and is then plugged
in at port `/p/1-257` (each add event followed by the deferred setup callback). Afterwards
two distinct devices are tracked, at the ports `/p/1-257` and `/p/1-1`, both with subnet
index 1. -/
theorem tracked_devices_share_subnet :
    (run start_context wraparound_events).tracked_devices =
      [plugged_device (port 257) 1, plugged_device (port 1) 1] ∧
    (plugged_device (port 257) 1).sysfs_path ≠ (plugged_device (port 1) 1).sysfs_path ∧
    (plugged_device (port 257) 1).subnet = 1 ∧ (plugged_device (port 1) 1).subnet = 1 := by
  obtain ⟨hnd, hlen, hp⟩ := ports_1_255_facts
  have hports : ports 2 255 = ports 2 254 ++ [port 256] := ports_succ 2 254
  refine ⟨?_, ?_, rfl, rfl⟩
  · unfold wraparound_events
    rw [hports]
    exact plug_after_wraparound start_context (port 1) (ports 2 254) (port 256) (port 257)
      rfl rfl rfl rfl rfl hnd hlen (hp 256 (by omega)) (hp 257 (by omega))
  · intro h
    have := port_injective 257 1 h
    omega

/-! ## Searching the tracked devices -/

theorem find_link_eq_none_iff (l : List Device) (p : String) :
    find_link l p = none ↔ ∀ d ∈ l, d.sysfs_path ≠ p := by
  induction l with
  | nil => simp [find_link]
  | cons d rest ih =>
    by_cases h : d.sysfs_path = p
    · simp [find_link, h]
    · simp [find_link, h, ih]

theorem find_link_isSome_iff (l : List Device) (p : String) :
    (find_link l p).isSome = true ↔ ∃ d ∈ l, d.sysfs_path = p := by
  rw [← not_iff_not]
  simp only [Bool.not_eq_true, Option.not_isSome, Option.isNone_iff_eq_none, not_exists, not_and]
  exact find_link_eq_none_iff l p

/-! ## C5: a second add for a known port -/

/-- C5. When some tracked device has `sysfs_path` `p`, `track_device` called with `p` (for
any `aoa_device` flag, `vid`, `pid`, `busnum`, `devnum` and whatever libusb would answer)
returns the context unchanged, so `tracked_devices`, the subnets table and `next_subnet` are
as before, and it has no effect on the environment: no device enumeration, no open, no
probe, no `g_timeout_add`. -/
theorem track_device_known_port (context : Context) (aoa_device : Bool) (p : String)
    (vid pid busnum devnum : Nat) (env : UsbEnv)
    (h : ∃ d ∈ context.tracked_devices, d.sysfs_path = p) :
    track_device context aoa_device p vid pid busnum devnum env = (context, []) := by
  have hs : (find_device context p).isSome = true :=
    (find_link_isSome_iff context.tracked_devices p).2 h
  simp [track_device, hs]

/-- Witness for C5: with the accessory of port `/p/1-1` tracked, a second add for that port
changes nothing and does nothing. -/
theorem track_device_known_port_witness :
    (∃ d ∈ (run start_context (plug (port 1))).tracked_devices, d.sysfs_path = port 1) ∧
    track_device (run start_context (plug (port 1))) false (port 1) 0x18D1 0x4EE7 1 7
      accessory_env = (run start_context (plug (port 1)), []) :=
  ⟨⟨plugged_device (port 1) 1, by decide, rfl⟩,
   track_device_known_port _ false (port 1) 0x18D1 0x4EE7 1 7 accessory_env
     ⟨plugged_device (port 1) 1, by decide, rfl⟩⟩

/-- On a list with pairwise distinct paths, deleting the link `find_link` returns leaves
exactly the devices with another path, in their order. -/
theorem delete_found_link (l : List Device) (p : String)
    (hnd : (l.map fun d => d.sysfs_path).Nodup) :
    match find_link l p with
    | none => l.filter (fun d => decide (d.sysfs_path ≠ p)) = l
    | some i => (∃ d, l.get? i = some d) ∧
        g_list_delete_link l i = l.filter (fun d => decide (d.sysfs_path ≠ p)) := by
  induction l with
  | nil => simp [find_link]
  | cons d rest ih =>
    simp only [List.map_cons, List.nodup_cons] at hnd
    have ih2 := ih hnd.2
    by_cases h : d.sysfs_path = p
    · have hrest : ∀ x ∈ rest, x.sysfs_path ≠ p := by
        intro x hx hxp
        apply hnd.1
        rw [h, ← hxp]
        exact List.mem_map_of_mem _ hx
      have hfilter : rest.filter (fun d => decide (d.sysfs_path ≠ p)) = rest := by
        rw [List.filter_eq_self]
        intro x hx
        simpa using hrest x hx
      simp only [find_link, h, if_true, List.get?, g_list_delete_link, List.eraseIdx]
      refine ⟨⟨d, rfl⟩, ?_⟩
      rw [List.filter_cons_of_neg (by simp [h]), hfilter]
    · cases hf : find_link rest p with
      | none =>
        rw [hf] at ih2
        simp only at ih2
        simp only [find_link, h, if_false, hf, Option.map]
        rw [List.filter_cons_of_pos (by simp [h]), ih2]
      | some i =>
        rw [hf] at ih2
        simp only at ih2
        obtain ⟨hx, hdel⟩ := ih2
        simp only [g_list_delete_link] at hdel
        simp only [find_link, h, if_false, hf, Option.map, List.get?, g_list_delete_link,
          List.eraseIdx]
        refine ⟨hx, ?_⟩
        rw [List.filter_cons_of_pos (by simp [h]), hdel]

/-- The effect of `untrack_device` on a context with pairwise distinct paths. -/
theorem untrack_device_of_distinct (c : Context) (p : String) (h : paths_distinct c) :
    (untrack_device c p).1 =
      { c with tracked_devices := c.tracked_devices.filter fun d => decide (d.sysfs_path ≠ p) } := by
  have hd := delete_found_link c.tracked_devices p h
  unfold untrack_device find_device
  cases hf : find_link c.tracked_devices p with
  | none =>
    rw [hf] at hd
    simp only at hd
    simp only [hd]
  | some i =>
    rw [hf] at hd
    simp only at hd
    obtain ⟨⟨x, hx⟩, hdel⟩ := hd
    simp only [hx, hdel]

/-- The call `untrack_device` for a port no tracked device has changes and does nothing. -/
theorem untrack_device_unknown (c : Context) (p : String)
    (h : ∀ d ∈ c.tracked_devices, d.sysfs_path ≠ p) : untrack_device c p = (c, []) := by
  have hf : find_link c.tracked_devices p = none := (find_link_eq_none_iff _ _).2 h
  simp [untrack_device, find_device, hf]


/-! ## Pairwise distinct paths: an invariant of the event loop -/

theorem device_probe_aoa_path (d : Device) (env : UsbEnv) :
    (device_probe_aoa d env).2.1.sysfs_path = d.sysfs_path := by
  unfold device_probe_aoa
  split
  · rfl
  · dsimp only
    split
    · split
      · rfl
      · split <;> rfl
    · split <;> rfl

theorem track_device_distinct (c : Context) (aoa : Bool) (p : String)
    (vid pid busnum devnum : Nat) (env : UsbEnv) (h : paths_distinct c) :
    paths_distinct (track_device c aoa p vid pid busnum devnum env).1 := by
  unfold track_device
  by_cases hk : (find_device c p).isSome = true
  · simp only [hk, if_true]; exact h
  · have hnone : ∀ d ∈ c.tracked_devices, d.sysfs_path ≠ p := by
      apply (find_link_eq_none_iff _ _).1
      simpa [find_device] using hk
    have hfresh : p ∉ c.tracked_devices.map fun d => d.sysfs_path := by
      intro hm
      obtain ⟨d, hd, hdp⟩ := List.mem_map.1 hm
      exact hnone d hd hdp
    simp only [hk]
    cases find_usb_device env busnum devnum with
    | none => exact h
    | some usb_device =>
      dsimp only
      split_ifs
      all_goals first
        | exact h
        | (unfold paths_distinct
           simp only [List.map_cons, List.nodup_cons]
           first
             | exact ⟨hfresh, h⟩
             | (rw [device_probe_aoa_path]; exact ⟨hfresh, h⟩))

theorem device_added_aoa_loop_distinct (pids : List Nat) (c : Context) (p : String)
    (vid pid busnum devnum : Nat) (env : UsbEnv) (h : paths_distinct c) :
    paths_distinct (device_added_aoa_loop c pids p vid pid busnum devnum env).1 := by
  induction pids with
  | nil => exact h
  | cons x rest ih =>
    unfold device_added_aoa_loop
    split
    · exact track_device_distinct _ _ _ _ _ _ _ _ h
    · exact ih

theorem device_added_distinct (c : Context) (device : UdevDevice) (env : UsbEnv)
    (h : paths_distinct c) : paths_distinct (device_added c device env).1 := by
  unfold device_added
  dsimp only
  split
  · exact h
  · split
    · exact h
    · split
      · exact h
      · rename_i sysfs_path _
        have h1 : paths_distinct
            (if device.idVendor = c.vid ∧ (device.idProduct = c.pid ∨ c.pid = 0) then
              track_device c false sysfs_path (device.idVendor % 65536)
                (device.idProduct % 65536) (device.busnum % 2 ^ 32) (device.devnum % 2 ^ 32) env
            else (c, [])).1 := by
          split
          · exact track_device_distinct _ _ _ _ _ _ _ _ h
          · exact h
        split
        · exact device_added_aoa_loop_distinct _ _ _ _ _ _ _ _ h1
        · exact h1

theorem untrack_device_distinct (c : Context) (p : String) (h : paths_distinct c) :
    paths_distinct (untrack_device c p).1 := by
  rw [untrack_device_of_distinct c p h]
  unfold paths_distinct at h ⊢
  exact h.sublist ((List.filter_sublist _).map _)

theorem map_path_set (l : List Device) (i : Nat) (d e : Device) (hd : l.get? i = some d)
    (he : e.sysfs_path = d.sysfs_path) :
    (l.set i e).map (fun x => x.sysfs_path) = l.map fun x => x.sysfs_path := by
  induction l generalizing i with
  | nil => rfl
  | cons x rest ih =>
    cases i with
    | zero =>
      simp only [List.get?, Option.some.injEq] at hd
      simp [List.set, he, hd]
    | succ j =>
      simp only [List.get?] at hd
      simp [List.set, ih j hd]

theorem device_setup_tethering_frame (c : Context) (d : Device) :
    (device_setup_tethering c d).1.tracked_devices = c.tracked_devices ∧
    (device_setup_tethering c d).2.1.sysfs_path = d.sysfs_path := by
  unfold device_setup_tethering
  dsimp only
  split <;> exact ⟨(select_subnet_frame c d.sysfs_path).1, rfl⟩

theorem device_setup_aoa_frame (c : Context) (d : Device) (rets : Nat → Int) :
    (device_setup_aoa c d rets).1.tracked_devices = c.tracked_devices ∧
    (device_setup_aoa c d rets).2.1.sysfs_path = d.sysfs_path := by
  unfold device_setup_aoa
  dsimp only
  repeat' split
  all_goals exact ⟨(select_subnet_frame c d.sysfs_path).1, rfl⟩

theorem fire_timeout_distinct (c : Context) (p : String) (rets : Nat → Int)
    (h : paths_distinct c) : paths_distinct (fire_timeout c p rets).1 := by
  unfold fire_timeout
  split
  · exact h
  · rename_i l _
    split
    · exact h
    · rename_i device hdev
      split
      · unfold paths_distinct at h ⊢
        dsimp only
        split
        · obtain ⟨f1, f2⟩ := device_setup_tethering_frame c
            { device with source_attached := false }
          rw [f1, map_path_set _ _ device _ hdev f2]
          exact h
        · obtain ⟨f1, f2⟩ := device_setup_aoa_frame c
            { device with source_attached := false } rets
          rw [f1, map_path_set _ _ device _ hdev f2]
          exact h
      · exact h

theorem quit_cb_distinct (c : Context) (h : paths_distinct c) : paths_distinct (quit_cb c) := by
  unfold paths_distinct quit_cb at *
  simpa [List.map_map, Function.comp] using h

theorem step_distinct (c : Context) (e : Event) (h : paths_distinct c) :
    paths_distinct (step c e).1 := by
  cases e with
  | add device env => exact device_added_distinct c device env h
  | remove device =>
    simp only [step, device_removed]
    split
    · exact h
    · exact untrack_device_distinct _ _ h
  | timeout p rets => exact fire_timeout_distinct c p rets h
  | signal => exact quit_cb_distinct c h

/-- Every context the event loop reaches from a context with pairwise distinct paths has
pairwise distinct paths; the start-up context has no tracked device. -/
theorem run_distinct (evs : List Event) : ∀ (c : Context), paths_distinct c →
    paths_distinct (run c evs) := by
  induction evs with
  | nil => intro c h; exact h
  | cons e rest ih => intro c h; exact ih _ (step_distinct c e h)

theorem initial_context_distinct (vid pid : Nat) (interface : String) :
    paths_distinct (initial_context vid pid interface) := by
  simp [paths_distinct, initial_context]

/-! ## C6: the effect of a remove on the tracked set -/

/-- C6. In every context the event loop reaches from start-up, and for every port `p`: after
`untrack_device (p)` no tracked device has `sysfs_path` `p`; the tracked devices are exactly
the former ones with another `sysfs_path`, unchanged and in the same order, and nothing else
in the context changes; and when no tracked device has `sysfs_path` `p`, the context is
unchanged and nothing is done. -/
theorem untrack_device_effect (vid pid : Nat) (interface : String) (evs : List Event)
    (p : String) :
    (∀ d ∈ (untrack_device (run (initial_context vid pid interface) evs) p).1.tracked_devices,
      d.sysfs_path ≠ p) ∧
    (untrack_device (run (initial_context vid pid interface) evs) p).1 =
      { run (initial_context vid pid interface) evs with
        tracked_devices :=
          (run (initial_context vid pid interface) evs).tracked_devices.filter
            fun d => decide (d.sysfs_path ≠ p) } ∧
    ((∀ d ∈ (run (initial_context vid pid interface) evs).tracked_devices, d.sysfs_path ≠ p) →
      untrack_device (run (initial_context vid pid interface) evs) p =
        (run (initial_context vid pid interface) evs, [])) := by
  have hinv := run_distinct evs _ (initial_context_distinct vid pid interface)
  have heq := untrack_device_of_distinct _ p hinv
  refine ⟨?_, heq, untrack_device_unknown _ p⟩
  intro d hd
  rw [heq] at hd
  simpa using (List.mem_filter.1 hd).2


/-- Witness for C6: with only the accessory of port `/p/1-1` tracked, a remove for port
`/p/1-2` leaves the context unchanged. -/
theorem untrack_device_effect_witness :
    (∀ d ∈ (run (initial_context 0x18D1 0x4EE7 "eth0") (plug (port 1))).tracked_devices,
      d.sysfs_path ≠ port 2) ∧
    untrack_device (run (initial_context 0x18D1 0x4EE7 "eth0") (plug (port 1))) (port 2) =
      (run (initial_context 0x18D1 0x4EE7 "eth0") (plug (port 1)), []) :=
  ⟨by decide,
   (untrack_device_effect 0x18D1 0x4EE7 "eth0" (plug (port 1)) (port 2)).2.2 (by decide)⟩

/-! ## The two `track_device` calls of an add event -/

/-- The result of the probe in terms of what the environment answers. -/
theorem device_probe_aoa_result (d : Device) (env : UsbEnv) :
    ((device_probe_aoa d env).1 = true ↔ probe_succeeds env) ∧
    ((device_probe_aoa d env).1 = true →
      (device_probe_aoa d env).2.1 = { d with usb_handle := true }) ∧
    Effect.usb_open d.busnum d.devnum ∈ (device_probe_aoa d env).2.2 ∧
    (∀ ms cb p, Effect.timeout_add ms cb p ∉ (device_probe_aoa d env).2.2) := by
  unfold device_probe_aoa probe_succeeds
  by_cases h1 : env.open_ret < 0
  · simp [h1]
  · by_cases h2 : env.driver_active = 0
    · by_cases h4 : env.get_protocol_ret < 0
      · simp [h1, h2, h4]
      · simp [h1, h2, h4]; omega
    · by_cases h3 : env.detach_ret < 0
      · simp [h1, h2, h3]
      · by_cases h4 : env.get_protocol_ret < 0
        · simp [h1, h2, h3, h4]
        · simp [h1, h2, h3, h4]; omega


theorem device_free_effects (d : Device) :
    (∀ b a, Effect.usb_open b a ∉ device_free d) ∧
    (∀ ms cb p, Effect.timeout_add ms cb p ∉ device_free d) := by
  unfold device_free
  constructor
  · intro b a
    split_ifs <;> simp
  · intro ms cb p
    split_ifs <;> simp

/-- The call `track_device` with `aoa_device = FALSE` for a port that is not tracked. -/
theorem track_device_candidate (c : Context) (p : String) (vid pid busnum devnum : Nat)
    (env : UsbEnv) (hnew : ∀ d ∈ c.tracked_devices, d.sysfs_path ≠ p) :
    (track_device c false p vid pid busnum devnum env).1 =
      { c with tracked_devices :=
          match find_usb_device env busnum devnum with
          | none => c.tracked_devices
          | some u =>
            if probe_succeeds env then
              tracked_record false p vid pid busnum devnum u env.source_id :: c.tracked_devices
            else c.tracked_devices } ∧
    (Effect.usb_open busnum devnum ∈ (track_device c false p vid pid busnum devnum env).2 ↔
      (find_usb_device env busnum devnum).isSome = true) ∧
    (∀ q, Effect.timeout_add TIMEOUT_AFTER_PROTOCOL_PROBE_MS SetupKind.setup_aoa q ∈
        (track_device c false p vid pid busnum devnum env).2 ↔
      q = p ∧ (find_usb_device env busnum devnum).isSome = true ∧ probe_succeeds env) ∧
    (∀ q, Effect.timeout_add TIMEOUT_AFTER_PROTOCOL_PROBE_MS SetupKind.setup_tethering q ∉
        (track_device c false p vid pid busnum devnum env).2) := by
  have hf : find_device c p = none := (find_link_eq_none_iff _ _).2 hnew
  unfold track_device
  simp only [hf, Option.isSome_none, Bool.false_eq_true, if_false, if_true]
  cases hu : find_usb_device env busnum devnum with
  | none =>
    simp [device_free, new_device]
  | some u =>
    obtain ⟨k1, k2, k3, k4⟩ := device_probe_aoa_result
      { new_device false p vid pid busnum devnum with usb_device := some u } env
    obtain ⟨e1, e2⟩ := device_free_effects (device_probe_aoa
      { new_device false p vid pid busnum devnum with usb_device := some u } env).2.1
    by_cases hp : probe_succeeds env
    · have hok := k1.2 hp
      have hdev := k2 hok
      simp only [hok, Bool.true_eq_false, if_false, hdev, hp, if_true]
      refine ⟨?_, ?_, ?_, ?_⟩
      · simp [tracked_record, new_device]
      · simp only [Option.isSome_some, iff_true]
        exact List.mem_cons_of_mem _ (List.mem_append_left _ k3)
      · intro q
        simp [k4, eq_comm]
      · intro q
        simp [k4]
    · have hok : (device_probe_aoa
          { new_device false p vid pid busnum devnum with usb_device := some u } env).1 = false := by
        cases hb : (device_probe_aoa
          { new_device false p vid pid busnum devnum with usb_device := some u } env).1
        · rfl
        · exact absurd (k1.1 hb) hp
      simp only [hok, if_true, hp, if_false]
      refine ⟨trivial, ?_, ?_, ?_⟩
      · simp only [Option.isSome_some, iff_true]
        exact List.mem_cons_of_mem _ (List.mem_append_left _ k3)
      · intro q
        simp [k4, e2]
      · intro q
        simp [k4, e2]

/-- The call `track_device` with `aoa_device = TRUE` for a port that is not tracked. -/
theorem track_device_accessory (c : Context) (p : String) (vid pid busnum devnum : Nat)
    (env : UsbEnv) (hnew : ∀ d ∈ c.tracked_devices, d.sysfs_path ≠ p) :
    (track_device c true p vid pid busnum devnum env).1 =
      { c with tracked_devices :=
          match find_usb_device env busnum devnum with
          | none => c.tracked_devices
          | some u =>
            tracked_record true p vid pid busnum devnum u env.source_id :: c.tracked_devices } ∧
    (∀ b a, Effect.usb_open b a ∉ (track_device c true p vid pid busnum devnum env).2) ∧
    (∀ q, Effect.timeout_add TIMEOUT_AFTER_PROTOCOL_PROBE_MS SetupKind.setup_aoa q ∉
        (track_device c true p vid pid busnum devnum env).2) ∧
    (∀ q, Effect.timeout_add TIMEOUT_AFTER_PROTOCOL_PROBE_MS SetupKind.setup_tethering q ∈
        (track_device c true p vid pid busnum devnum env).2 ↔
      q = p ∧ (find_usb_device env busnum devnum).isSome = true) := by
  have hf : find_device c p = none := (find_link_eq_none_iff _ _).2 hnew
  unfold track_device
  simp only [hf, Option.isSome_none, Bool.false_eq_true, if_false, if_true]
  cases hu : find_usb_device env busnum devnum with
  | none => simp [device_free, new_device]
  | some u => simp [tracked_record, new_device, eq_comm]

/-- The loop over `aoa_pids` calls `track_device` exactly for the product ids `0x2D00` to
`0x2D05`. -/
theorem device_added_aoa_loop_eq (c : Context) (p : String) (vid pid busnum devnum : Nat)
    (env : UsbEnv) :
    device_added_aoa_loop c aoa_pids p vid pid busnum devnum env =
      if 0x2D00 ≤ pid ∧ pid ≤ 0x2D05 then
        track_device c true p (vid % 65536) (pid % 65536) (busnum % 2 ^ 32) (devnum % 2 ^ 32) env
      else (c, []) := by
  simp only [aoa_pids, device_added_aoa_loop, AOA_ACCESSORY_PID, AOA_ACCESSORY_ADB_PID,
    AOA_AUDIO_PID, AOA_AUDIO_ADB_PID, AOA_ACCESSORY_AUDIO_PID, AOA_ACCESSORY_AUDIO_ADB_PID]
  split_ifs <;> first | rfl | omega


theorem context_eta (c : Context) : { c with tracked_devices := c.tracked_devices } = c := rfl

/-! ## C7: the classification of an add event -/

/-- C7, as the code has it. For an add event with non-zero `vid`, `pid`, `busnum`, `devnum`
and a port `p` that is not tracked: when libusb does not find the device at
(`busnum`, `devnum`) nothing is tracked. When it finds it: if the candidate condition holds,
the AOA probe is run (and it is run in no other case), and the device is tracked with
`aoa = false`, with `device_setup_aoa` scheduled, iff the probe succeeds; if the accessory
condition holds and the candidate call has not tracked the device (the candidate condition
fails or the probe failed), the device is tracked with `aoa = true` and
`device_setup_tethering` is scheduled, whether or not the candidate condition holds;
otherwise nothing is tracked. Nothing else in the context changes. -/
theorem device_added_classification (c : Context) (dev : UdevDevice) (env : UsbEnv)
    (p : String) (hvid : dev.idVendor ≠ 0) (hpid : dev.idProduct ≠ 0) (hbus : dev.busnum ≠ 0)
    (hdev : dev.devnum ≠ 0) (hpath : dev.sysfs_path = some p)
    (hnew : ∀ d ∈ c.tracked_devices, d.sysfs_path ≠ p) :
    (device_added c dev env).1 =
      { c with tracked_devices :=
          match find_usb_device env (dev.busnum % 2 ^ 32) (dev.devnum % 2 ^ 32) with
          | none => c.tracked_devices
          | some u =>
            if candidate_condition c dev.idVendor dev.idProduct ∧ probe_succeeds env then
              tracked_record false p (dev.idVendor % 65536) (dev.idProduct % 65536)
                (dev.busnum % 2 ^ 32) (dev.devnum % 2 ^ 32) u env.source_id :: c.tracked_devices
            else if accessory_condition dev.idVendor dev.idProduct then
              tracked_record true p (dev.idVendor % 65536) (dev.idProduct % 65536)
                (dev.busnum % 2 ^ 32) (dev.devnum % 2 ^ 32) u env.source_id :: c.tracked_devices
            else c.tracked_devices } ∧
    (Effect.usb_open (dev.busnum % 2 ^ 32) (dev.devnum % 2 ^ 32) ∈ (device_added c dev env).2 ↔
      candidate_condition c dev.idVendor dev.idProduct ∧
      (find_usb_device env (dev.busnum % 2 ^ 32) (dev.devnum % 2 ^ 32)).isSome = true) ∧
    (Effect.timeout_add TIMEOUT_AFTER_PROTOCOL_PROBE_MS SetupKind.setup_aoa p ∈
        (device_added c dev env).2 ↔
      candidate_condition c dev.idVendor dev.idProduct ∧
      (find_usb_device env (dev.busnum % 2 ^ 32) (dev.devnum % 2 ^ 32)).isSome = true ∧
      probe_succeeds env) ∧
    (Effect.timeout_add TIMEOUT_AFTER_PROTOCOL_PROBE_MS SetupKind.setup_tethering p ∈
        (device_added c dev env).2 ↔
      accessory_condition dev.idVendor dev.idProduct ∧
      (find_usb_device env (dev.busnum % 2 ^ 32) (dev.devnum % 2 ^ 32)).isSome = true ∧
      ¬ (candidate_condition c dev.idVendor dev.idProduct ∧ probe_succeeds env)) := by
  obtain ⟨a1, a2, a3, a4⟩ := track_device_candidate c p (dev.idVendor % 65536)
    (dev.idProduct % 65536) (dev.busnum % 2 ^ 32) (dev.devnum % 2 ^ 32) env hnew
  obtain ⟨b1, b2, b3, b4⟩ := track_device_accessory c p (dev.idVendor % 65536)
    (dev.idProduct % 65536) (dev.busnum % 2 ^ 32) (dev.devnum % 2 ^ 32) env hnew
  have hcand : candidate_condition c dev.idVendor dev.idProduct ↔
      (dev.idVendor = c.vid ∧ (dev.idProduct = c.pid ∨ c.pid = 0)) := by
    unfold candidate_condition
    constructor
    · rintro ⟨h1, h2⟩; exact ⟨h1, h2.symm⟩
    · rintro ⟨h1, h2⟩; exact ⟨h1, h2.symm⟩
  have hacc : accessory_condition dev.idVendor dev.idProduct ↔
      (dev.idVendor = AOA_ACCESSORY_VID ∧ (0x2D00 ≤ dev.idProduct ∧ dev.idProduct ≤ 0x2D05)) :=
    Iff.rfl
  have hknown : ∀ X : Context, (∃ d ∈ X.tracked_devices, d.sysfs_path = p) →
      track_device X true p (dev.idVendor % 65536) (dev.idProduct % 65536)
        (dev.busnum % 2 ^ 32) (dev.devnum % 2 ^ 32) env = (X, []) :=
    fun X h => by
      have hs : (find_device X p).isSome = true := (find_link_isSome_iff X.tracked_devices p).2 h
      simp [track_device, hs]
  unfold device_added
  simp only [hvid, hpid, hbus, hdev, or_self, if_false, hpath, device_added_aoa_loop_eq]
  simp only [← hcand]
  generalize dev.idVendor % 65536 = V at *
  generalize dev.idProduct % 65536 = P at *
  generalize dev.busnum % 2 ^ 32 = B at *
  generalize dev.devnum % 2 ^ 32 = D at *
  have hsplit : ∀ (X : Context),
      ((if dev.idVendor = AOA_ACCESSORY_VID then
          if 0x2D00 ≤ dev.idProduct ∧ dev.idProduct ≤ 0x2D05 then track_device X true p V P B D env
          else (X, [])
        else (X, [])) : Context × List Effect) =
      if accessory_condition dev.idVendor dev.idProduct then track_device X true p V P B D env
      else (X, []) := by
    intro X
    by_cases hV : dev.idVendor = AOA_ACCESSORY_VID
    · by_cases hR : 0x2D00 ≤ dev.idProduct ∧ dev.idProduct ≤ 0x2D05
      · rw [if_pos hV, if_pos hR, if_pos (hacc.2 ⟨hV, hR⟩)]
      · rw [if_pos hV, if_neg hR, if_neg (fun h => hR (hacc.1 h).2)]
    · rw [if_neg hV, if_neg (fun h => hV (hacc.1 h).1)]
  simp only [hsplit]
  by_cases hC : candidate_condition c dev.idVendor dev.idProduct
  · simp only [hC, if_true, true_and]
    by_cases hP : probe_succeeds env
    · cases hu : find_usb_device env B D with
      | none =>
        simp only [hu] at a1 a2 a3 a4 b1 b2 b3 b4
        have a1c : (track_device c false p V P B D env).1 = c := a1
        by_cases hA : accessory_condition dev.idVendor dev.idProduct
        · simp [hA, a1c, a2, a3, a4, b1, b2, b3, b4]
        · simp [hA, a1c, a2, a3, a4]
      | some u =>
        simp only [hu, hP, if_true] at a1 a2 a3 a4 b1 b2 b3 b4
        have hk := hknown (track_device c false p V P B D env).1
          ⟨tracked_record false p V P B D u env.source_id,
            by rw [a1]; exact List.mem_cons_self _ _, rfl⟩
        rw [a1] at hk
        by_cases hA : accessory_condition dev.idVendor dev.idProduct
        · simp [hA, hP, hk, a1, a2, a3, a4]
        · simp [hA, hP, a1, a2, a3, a4]
    · have a1c : (track_device c false p V P B D env).1 = c := by
        rw [a1]
        cases find_usb_device env B D <;> simp [hP]
      cases hu : find_usb_device env B D with
      | none =>
        simp only [hu] at a2 a3 a4 b1 b2 b3 b4
        by_cases hA : accessory_condition dev.idVendor dev.idProduct
        · simp [hA, hP, a1c, a2, a3, a4, b1, b2, b3, b4]
        · simp [hA, hP, a1c, a2, a3, a4]
      | some u =>
        simp only [hu, hP, if_false] at a2 a3 a4 b1 b2 b3 b4
        by_cases hA : accessory_condition dev.idVendor dev.idProduct
        · simp [hA, hP, a1c, a2, a3, a4, b1, b2, b3, b4]
        · simp [hA, hP, a1c, a2, a3, a4]
  · simp only [hC, if_false, false_and]
    cases hu : find_usb_device env B D with
    | none =>
      simp only [hu] at b1 b2 b3 b4
      by_cases hA : accessory_condition dev.idVendor dev.idProduct
      · simp [hA, b1, b2, b3, b4]
      · simp [hA]
    | some u =>
      simp only [hu] at b1 b2 b3 b4
      by_cases hA : accessory_condition dev.idVendor dev.idProduct
      · simp [hA, b1, b2, b3, b4]
      · simp [hA]


/-- Witness for C7: with `--vid 18d1 --pid 4ee7`, an add event for an accessory (18d1:2d01)
at the untracked port `/p/1-1` that libusb finds tracks it with `aoa = true`. -/
theorem device_added_classification_witness :
    ((accessory_at (port 1)).idVendor ≠ 0 ∧ (accessory_at (port 1)).idProduct ≠ 0 ∧
      (accessory_at (port 1)).busnum ≠ 0 ∧ (accessory_at (port 1)).devnum ≠ 0 ∧
      (accessory_at (port 1)).sysfs_path = some (port 1) ∧
      ∀ d ∈ start_context.tracked_devices, d.sysfs_path ≠ port 1) ∧
    (device_added start_context (accessory_at (port 1)) accessory_env).1 =
      { start_context with
        tracked_devices := [tracked_record true (port 1) 0x18D1 0x2D01 1 6 (1, 6) 1] } :=
  ⟨by decide,
   (device_added_classification start_context (accessory_at (port 1)) accessory_env (port 1)
      (by decide) (by decide) (by decide) (by decide) rfl (by decide)).1.trans (by decide)⟩

/-- C7 as stated fails. With `--vid 18d1` and no `--pid`, an add event for 18d1:2d01 at the
untracked port `/p/1-1`, found by libusb, whose `libusb_open` fails: the candidate condition
holds and the probe is run, and yet the accessory branch is taken as well: the device ends
up tracked with `aoa = true` and `device_setup_tethering` is scheduled. -/
theorem device_added_takes_both_branches :
    candidate_condition (initial_context 0x18D1 0 "eth0") 0x18D1 0x2D01 ∧
    Effect.usb_open 1 6 ∈
      (device_added (initial_context 0x18D1 0 "eth0") (accessory_at (port 1))
        open_failing_env).2 ∧
    (device_added (initial_context 0x18D1 0 "eth0") (accessory_at (port 1))
        open_failing_env).1.tracked_devices =
      [tracked_record true (port 1) 0x18D1 0x2D01 1 6 (1, 6) 1] ∧
    (tracked_record true (port 1) 0x18D1 0x2D01 1 6 (1, 6) 1).aoa = true ∧
    Effect.timeout_add TIMEOUT_AFTER_PROTOCOL_PROBE_MS SetupKind.setup_tethering (port 1) ∈
      (device_added (initial_context 0x18D1 0 "eth0") (accessory_at (port 1))
        open_failing_env).2 := by
  decide

/-! ## The control transfers of the setup phase -/

theorem control_transfers_out (c : Context) (d : Device) (issued : List ControlTransfer) :
    control_transfers (device_setup_aoa_out c d issued).2.2 = issued := by
  unfold device_setup_aoa_out
  induction issued with
  | nil => cases d.usb_handle <;> rfl
  | cons t rest ih => simpa [control_transfers] using ih

/-- The transfers of the source and of the specification are the same seven. -/
theorem setup_sequence_eq (s : Nat) :
    setup_sequence s =
      [send_ident AOA_STRING_MAN_ID default_manufacturer,
       send_ident AOA_STRING_MOD_ID default_model,
       send_ident AOA_STRING_DSC_ID default_description,
       send_ident AOA_STRING_VER_ID default_version,
       send_ident AOA_STRING_URL_ID default_url,
       send_ident AOA_STRING_SER_ID ("10.11." ++ toString s ++ ".2"),
       start_accessory] := by
  simp only [setup_sequence, vendor_out, send_ident, start_accessory, AOA_STRING_MAN_ID,
    AOA_STRING_MOD_ID, AOA_STRING_DSC_ID, AOA_STRING_VER_ID, AOA_STRING_URL_ID,
    AOA_STRING_SER_ID, REQUEST_TYPE_VENDOR_OUT, AOA_SEND_IDENT, AOA_START_ACCESSORY,
    default_manufacturer, default_model, default_description, default_version, default_url]
  have h1 : strlen "The SimpleRT developers" + 1 = 24 := by decide
  have h2 : strlen "gSimpleRT" + 1 = 10 := by decide
  have h3 : strlen "Simple Reverse Tethering" + 1 = 25 := by decide
  have h4 : strlen "1.0" + 1 = 4 := by decide
  have h5 : strlen "https://github.com/aleksander0m/SimpleRT" + 1 = 41 := by decide
  rw [h1, h2, h3, h4, h5]

/-! ## C8: the AOA setup transfer sequence -/

/-- C8. When the subnet stored in the device by `device_setup_aoa` (the `guint8` of what
`select_subnet` returns for the device's port) is `s ≠ 0`, the control transfers that
`device_setup_aoa` issues are exactly the initial part, up to and including the first
transfer that returns a negative value, of the seven-element sequence of the
specification for `s`: all seven, in order, when every transfer returns a non-negative
value. -/
theorem device_setup_aoa_transfers (c : Context) (d : Device) (rets : Nat → Int)
    (h : (select_subnet c d.sysfs_path).1 % 256 ≠ 0) :
    (device_setup_aoa c d rets).2.1.subnet = (select_subnet c d.sysfs_path).1 % 256 ∧
    control_transfers (device_setup_aoa c d rets).2.2 =
      through_first_negative (setup_sequence ((select_subnet c d.sysfs_path).1 % 256)) rets 0 ∧
    ((∀ i, i < 7 → 0 ≤ rets i) →
      control_transfers (device_setup_aoa c d rets).2.2 =
        setup_sequence ((select_subnet c d.sysfs_path).1 % 256)) := by
  have key : control_transfers (device_setup_aoa c d rets).2.2 =
      through_first_negative (setup_sequence ((select_subnet c d.sysfs_path).1 % 256))
        rets 0 := by
    rw [setup_sequence_eq]
    unfold device_setup_aoa
    simp only [h, if_false, through_first_negative]
    split_ifs <;> simp only [control_transfers_out, toString]
  refine ⟨?_, key, ?_⟩
  · unfold device_setup_aoa
    simp only [h, if_false]
    split_ifs <;> rfl
  · intro hall
    rw [key]
    have h0 := hall 0 (by omega)
    have h1 := hall 1 (by omega)
    have h2 := hall 2 (by omega)
    have h3 := hall 3 (by omega)
    have h4 := hall 4 (by omega)
    have h5 := hall 5 (by omega)
    have h6 := hall 6 (by omega)
    simp only [setup_sequence, through_first_negative, not_lt.2 h0, not_lt.2 h1, not_lt.2 h2,
      not_lt.2 h3, not_lt.2 h4, not_lt.2 h5, not_lt.2 h6, if_false]


/-- Witness for C8 (scenario S1): a candidate at port `/p/1-1` gets subnet 1, every transfer
succeeds, and the seven transfers of the sequence for subnet 1 are issued, the serial being
`10.11.1.2`. -/
theorem device_setup_aoa_transfers_witness :
    (select_subnet start_context
      (tracked_record false (port 1) 0x18D1 0x4EE7 1 5 (1, 5) 1).sysfs_path).1 % 256 ≠ 0 ∧
    control_transfers
      (device_setup_aoa start_context (tracked_record false (port 1) 0x18D1 0x4EE7 1 5 (1, 5) 1)
        (fun _ => 0)).2.2 = setup_sequence 1 ∧
    (setup_sequence 1).map (fun t => t.data) =
      ["The SimpleRT developers", "gSimpleRT", "Simple Reverse Tethering", "1.0",
       "https://github.com/aleksander0m/SimpleRT", "10.11.1.2", ""] :=
  ⟨by decide,
   (device_setup_aoa_transfers start_context
      (tracked_record false (port 1) 0x18D1 0x4EE7 1 5 (1, 5) 1) (fun _ => 0) (by decide)).2.2
      (fun _ _ => Int.le_refl 0),
   by decide⟩

/-! ## Field splitting of the helper's command line -/

theorem split_fields_chars (w : List Char) (hw : ∀ c ∈ w, is_blank c = false) :
    ∀ (word rest : List Char), split_fields (w ++ rest) word = split_fields rest (word ++ w) := by
  induction w with
  | nil => intro word rest; simp
  | cons c w ih =>
    intro word rest
    have hc : is_blank c = false := hw c (List.mem_cons_self _ _)
    have hw2 : ∀ x ∈ w, is_blank x = false := fun x hx => hw x (List.mem_cons_of_mem _ hx)
    simp only [List.cons_append, split_fields, hc, Bool.false_eq_true, if_false]
    show split_fields (w ++ rest) (word ++ [c]) = _
    rw [ih hw2]
    simp

/-- A non-empty word without blanks, followed by a blank, is the next field. -/
theorem split_fields_word (w : List Char) (b : Char) (rest : List Char) (hne : w ≠ [])
    (hw : ∀ c ∈ w, is_blank c = false) (hb : is_blank b = true) :
    split_fields (w ++ b :: rest) [] = String.mk w :: split_fields rest [] := by
  rw [split_fields_chars w hw]
  simp [split_fields, hb, hne]

theorem is_blank_of_plain (c : Char) (h : is_plain c = true) : is_blank c = false := by
  unfold is_blank
  unfold is_plain at h
  by_contra hb
  simp only [Bool.not_eq_false, Bool.or_eq_true, decide_eq_true_eq] at hb
  rcases hb with (hb | hb) | hb <;> (subst hb; revert h; decide)

theorem is_blank_of_digit (c : Char) (h : c.isDigit = true) : is_blank c = false := by
  unfold is_blank
  by_contra hb
  simp only [Bool.not_eq_false, Bool.or_eq_true, decide_eq_true_eq] at hb
  rcases hb with (hb | hb) | hb <;> (subst hb; revert h; decide)

/-- The dotted address built from the subnet contains no blank. -/
theorem address_no_blank (s : Nat) (last : Char) (hl : is_blank last = false) :
    ("10.11." ++ toString s ++ String.mk [ '.', last]).data ≠ [] ∧
    ∀ c ∈ ("10.11." ++ toString s ++ String.mk [ '.', last]).data, is_blank c = false := by
  constructor
  · simp [String.data_append]
  · intro c hc
    simp only [String.data_append, List.mem_append] at hc
    rcases hc with (hc | hc) | hc
    · revert c; decide
    · exact is_blank_of_digit c ((toString_data s).2.2 c hc)
    · simp only [List.mem_cons, List.mem_singleton, List.not_mem_nil, or_false] at hc
      rcases hc with hc | hc
      · rw [hc]; decide
      · rw [hc]; exact hl


theorem literal_no_blank (w : String) (h : w.data.all (fun c => !is_blank c) = true) :
    ∀ c ∈ w.data, is_blank c = false := by
  intro c hc
  have := List.all_eq_true.1 h c hc
  simpa using this

/-- The command line of the helper, split into fields, when the TUN name and the uplink
interface name are single shell words. -/
theorem shell_fields_command (tun iface : String) (s : Nat) (ht : plain_word tun)
    (hi : plain_word iface) :
    shell_fields (iface_up_command tun iface s) =
      ["g-simple-rt-iface-up.sh", "linux", tun, iface, "10.11." ++ toString s ++ ".0", "30",
       "10.11." ++ toString s ++ ".1"] := by
  have hdata : (iface_up_command tun iface s).data =
      "g-simple-rt-iface-up.sh".data ++ ' ' :: ("linux".data ++ ' ' :: (tun.data ++ ' ' ::
        (iface.data ++ ' ' :: (("10.11." ++ toString s ++ ".0").data ++ ' ' ::
          ("30".data ++ ' ' :: (("10.11." ++ toString s ++ ".1").data ++ '\n' :: [])))))) := by
    simp [iface_up_command, String.data_append]
  obtain ⟨n1, n2⟩ := address_no_blank s '0' (by decide)
  obtain ⟨m1, m2⟩ := address_no_blank s '1' (by decide)
  unfold shell_fields
  rw [hdata,
    split_fields_word _ ' ' _ (by decide) (literal_no_blank _ (by decide)) (by decide),
    split_fields_word _ ' ' _ (by decide) (literal_no_blank _ (by decide)) (by decide),
    split_fields_word _ ' ' _ ht.1 (fun c hc => is_blank_of_plain c (ht.2 c hc)) (by decide),
    split_fields_word _ ' ' _ hi.1 (fun c hc => is_blank_of_plain c (hi.2 c hc)) (by decide),
    split_fields_word _ ' ' _ n1 n2 (by decide),
    split_fields_word _ ' ' _ (by decide) (literal_no_blank _ (by decide)) (by decide),
    split_fields_word _ '\n' _ m1 m2 (by decide)]
  rfl


theorem strncpy_short (name : String) (n : Nat) (h : name.length ≤ n) : strncpy name n = name := by
  unfold strncpy
  rw [List.take_of_length_le h]

/-! ## C9: the invocation of the bring-up helper -/

/-- C9, as the code has it. `device_setup_tethering` stores the `guint8` of what
`select_subnet` returns for the device's port and starts the connection thread iff it is
non-zero. Once the TUN device exists (the `open` and the `TUNSETIFF` ioctl succeeded),
`conn_thread_func` makes exactly one `system` call, with the command line
`g-simple-rt-iface-up.sh linux <tun_name> <interface> 10.11.<s>.0 30 10.11.<s>.1` and a
newline, where `tun_name` is the kernel-assigned name (its first 15 bytes), `interface`
the configured uplink name and `s` the device's subnet in decimal. When `tun_name` and
`interface` are single shell words, the fields of that line are the helper and the six
arguments of the specification. A non-zero result of `system` means no `libusb_open` and no
relay worker. -/
theorem conn_thread_func_helper (c : Context) (d : Device) (env : ConnEnv)
    (hopen : 0 ≤ env.open_ret) (hioctl : 0 ≤ env.ioctl_ret) :
    ((device_setup_tethering c d).2.1.subnet = (select_subnet c d.sysfs_path).1 % 256 ∧
      (Effect.thread_new_conn d.sysfs_path ∈ (device_setup_tethering c d).2.2 ↔
        (select_subnet c d.sysfs_path).1 % 256 ≠ 0)) ∧
    (env.ifr_name.length ≤ 15 → strncpy env.ifr_name (IFNAMSIZ - 1) = env.ifr_name) ∧
    system_calls (conn_thread_func c d env).2 =
      [iface_up_command (strncpy env.ifr_name (IFNAMSIZ - 1)) c.interface d.subnet] ∧
    (plain_word (strncpy env.ifr_name (IFNAMSIZ - 1)) → plain_word c.interface →
      shell_fields (iface_up_command (strncpy env.ifr_name (IFNAMSIZ - 1)) c.interface d.subnet) =
        ["g-simple-rt-iface-up.sh", "linux", strncpy env.ifr_name (IFNAMSIZ - 1), c.interface,
         "10.11." ++ toString d.subnet ++ ".0", "30", "10.11." ++ toString d.subnet ++ ".1"]) ∧
    (env.system_ret ≠ 0 →
      (∀ b a, Effect.usb_open b a ∉ (conn_thread_func c d env).2) ∧
      Effect.thread_new_tun ∉ (conn_thread_func c d env).2 ∧
      Effect.thread_new_acc ∉ (conn_thread_func c d env).2) := by
  have h1 : ¬ env.open_ret < 0 := by omega
  have h2 : ¬ env.ioctl_ret < 0 := by omega
  refine ⟨⟨?_, ?_⟩, fun h => strncpy_short _ _ h, ?_, fun ht hi => shell_fields_command _ _ _ ht hi,
    ?_⟩
  · unfold device_setup_tethering
    dsimp only
    split_ifs <;> rfl
  · unfold device_setup_tethering
    dsimp only
    split_ifs with h <;> simp [h]
  · unfold conn_thread_func conn_thread_out
    simp only [h1, h2, if_false]
    split_ifs <;> simp [system_calls]
  · intro hs
    unfold conn_thread_func conn_thread_out
    simp only [h1, h2, hs, if_false, ne_eq, not_false_eq_true, if_true]
    refine ⟨fun b a => ?_, ?_, ?_⟩ <;> split_ifs <;> simp


/-- Witness for C9 (scenario S2): for the accessory at port `/p/1-1` with subnet 1, TUN name
`tun0` and uplink `eth0`, the helper is run with `linux tun0 eth0 10.11.1.0 30 10.11.1.1`;
and when the helper exits with status 1 no relay worker is started. -/
theorem conn_thread_func_helper_witness :
    system_calls (conn_thread_func start_context (plugged_device (port 1) 1) tun0_env).2 =
      ["g-simple-rt-iface-up.sh linux tun0 eth0 10.11.1.0 30 10.11.1.1\n"] ∧
    shell_fields "g-simple-rt-iface-up.sh linux tun0 eth0 10.11.1.0 30 10.11.1.1\n" =
      ["g-simple-rt-iface-up.sh", "linux", "tun0", "eth0", "10.11.1.0", "30", "10.11.1.1"] ∧
    Effect.thread_new_tun ∉
      (conn_thread_func start_context (plugged_device (port 1) 1) helper_failing_env).2 :=
  ⟨(conn_thread_func_helper start_context (plugged_device (port 1) 1) tun0_env
      (by decide) (by decide)).2.2.1.trans (by decide),
   (by decide : shell_fields "g-simple-rt-iface-up.sh linux tun0 eth0 10.11.1.0 30 10.11.1.1\n"
      = shell_fields (iface_up_command (strncpy tun0_env.ifr_name (IFNAMSIZ - 1))
          start_context.interface (plugged_device (port 1) 1).subnet)).trans
     (((conn_thread_func_helper start_context (plugged_device (port 1) 1) tun0_env
      (by decide) (by decide)).2.2.2.1 (by decide) (by decide)).trans (by decide)),
   ((conn_thread_func_helper start_context (plugged_device (port 1) 1) helper_failing_env
      (by decide) (by decide)).2.2.2.2 (by decide)).2.1⟩

/-- C9 as stated fails. With `--interface "eth0 eth1"`, subnet 1 and TUN name `tun0`, the
command line handed to `system` has eight fields: the configured interface name is not one
argument of the helper, and the argument vector is not the one of the specification. -/
theorem helper_arguments_split :
    system_calls
      (conn_thread_func (initial_context 0x18D1 0x4EE7 "eth0 eth1") (plugged_device (port 1) 1)
        tun0_env).2 =
      ["g-simple-rt-iface-up.sh linux tun0 eth0 eth1 10.11.1.0 30 10.11.1.1\n"] ∧
    shell_fields "g-simple-rt-iface-up.sh linux tun0 eth0 eth1 10.11.1.0 30 10.11.1.1\n" =
      ["g-simple-rt-iface-up.sh", "linux", "tun0", "eth0", "eth1", "10.11.1.0", "30",
       "10.11.1.1"] ∧
    shell_fields "g-simple-rt-iface-up.sh linux tun0 eth0 eth1 10.11.1.0 30 10.11.1.1\n" ≠
      ["g-simple-rt-iface-up.sh", "linux", "tun0", "eth0 eth1", "10.11.1.0", "30",
       "10.11.1.1"] := by
  decide

/-! ## C10: the TUN to USB direction -/

/-- C10. In an iteration of the loop of `tun_thread_func` that passes the halt check and
the `select`, and whose `read` returns a payload of `n` bytes with `1 ≤ n ≤ 4096`, the
worker issues exactly one bulk transfer: on endpoint `0x02`, with timeout 200 ms, of
length `n`, sending exactly the `n` bytes read, whatever `acc_buf` held before. -/
theorem tun_thread_iteration_relays (acc_buf : List Nat) (io : TunStep) (n : Nat)
    (hhalt : io.halt = false) (hselect : 0 < io.select_status)
    (hn1 : 1 ≤ n) (hn2 : n ≤ 4096) (hret : io.read_ret = n) (hdata : io.read_data.length = n) :
    ∃ t, bulk_transfers (tun_thread_iteration acc_buf io).2.1 = [t] ∧
      t.endpoint = 0x02 ∧ t.timeout = 200 ∧ t.length = n ∧ t.data = io.read_data := by
  have hs1 : ¬ io.select_status < 0 := by omega
  have hs2 : ¬ io.select_status = 0 := by omega
  have hpos : 0 < io.read_ret := by omega
  have hnread : (io.read_ret % 2 ^ 64).toNat = n := by
    rw [hret]
    omega
  have hgint : to_gint n = n := by
    unfold to_gint
    omega
  have htake : (store acc_buf io.read_data).take n = io.read_data := by
    unfold store
    rw [← hdata]
    simp
  refine ⟨{ endpoint := AOA_ACCESSORY_EP_OUT, buffer := store acc_buf io.read_data,
            length := to_gint n, timeout := ACC_TIMEOUT }, ?_, rfl, rfl, hgint, ?_⟩
  · unfold tun_thread_iteration
    simp only [hhalt, hs1, hs2, hpos, hnread, if_true, if_false, Bool.false_eq_true]
    have hgt : n > 0 := by omega
    simp only [hgt, if_true]
    split_ifs <;> rfl
  · simp only [BulkTransfer.data, hgint, Int.toNat_ofNat, htake]

/-- Witness for C10 (scenario S3): 100 bytes read from the TUN device go out in one bulk
transfer of 100 bytes on endpoint `0x02`. -/
theorem tun_thread_iteration_relays_witness :
    ∃ t, bulk_transfers (tun_thread_iteration (List.replicate 4096 0)
        { halt := false, select_status := 1, select_eintr := false, read_ret := 100,
          read_data := List.replicate 100 69, bulk_ret := 0 }).2.1 = [t] ∧
      t.endpoint = 0x02 ∧ t.timeout = 200 ∧ t.length = (100 : Nat) ∧
      t.data = List.replicate 100 69 :=
  tun_thread_iteration_relays (List.replicate 4096 0)
    { halt := false, select_status := 1, select_eintr := false, read_ret := 100,
      read_data := List.replicate 100 69, bulk_ret := 0 } 100 rfl (by decide) (by decide)
    (by decide) rfl (by simp)

theorem take_store (acc_buf data : List Nat) : (store acc_buf data).take data.length = data := by
  unfold store
  simp

/-! ## C11: the USB to TUN direction -/

/-- C11. In an iteration of the loop of `acc_thread_func` that passes the halt check and
whose bulk IN transfer returns successfully with `n ≤ 4096` bytes transferred, the worker
issues exactly one bulk transfer (endpoint `0x81`, the 4096-byte buffer, timeout 200 ms) and
exactly one write to the TUN fd, whose data is exactly the `n` bytes received, which are the
first `n` bytes of the receive buffer after the transfer, whatever `acc_buf` held before and
whatever `write` returns. -/
theorem acc_thread_iteration_relays (acc_buf : List Nat) (io : AccStep) (n : Nat)
    (hhalt : io.halt = false) (hbulk : 0 ≤ io.bulk_ret) (hn : io.transferred = n)
    (hmax : n ≤ 4096) (hdata : io.bulk_data.length = n) :
    bulk_transfers (acc_thread_iteration acc_buf io).2.1 =
      [{ endpoint := 0x81, buffer := acc_buf, length := 4096, timeout := 200 }] ∧
    tun_writes (acc_thread_iteration acc_buf io).2.1 = [io.bulk_data] ∧
    (store acc_buf io.bulk_data).take n = io.bulk_data := by
  have hb : ¬ io.bulk_ret < 0 := by omega
  have hsize : to_gsize io.transferred = io.bulk_data.length := by
    rw [hn, hdata]
    unfold to_gsize
    omega
  refine ⟨?_, ?_, ?_⟩
  · unfold acc_thread_iteration
    simp only [hhalt, hb, if_false, Bool.false_eq_true]
    split_ifs <;> rfl
  · unfold acc_thread_iteration
    simp only [hhalt, hb, if_false, Bool.false_eq_true, hsize, take_store]
    split_ifs <;> rfl
  · rw [← hdata]
    exact take_store acc_buf io.bulk_data

/-- Witness for C11 (scenario S4): 60 bytes received by the bulk IN transfer go to the TUN
fd in one write of those 60 bytes. -/
theorem acc_thread_iteration_relays_witness :
    bulk_transfers (acc_thread_iteration (List.replicate 4096 0)
        { halt := false, bulk_ret := 0, transferred := 60,
          bulk_data := List.replicate 60 69, write_ret := 60 }).2.1 =
      [{ endpoint := 0x81, buffer := List.replicate 4096 0, length := 4096, timeout := 200 }] ∧
    tun_writes (acc_thread_iteration (List.replicate 4096 0)
        { halt := false, bulk_ret := 0, transferred := 60,
          bulk_data := List.replicate 60 69, write_ret := 60 }).2.1 =
      [List.replicate 60 69] ∧
    (store (List.replicate 4096 0) (List.replicate 60 69)).take 60 = List.replicate 60 69 :=
  acc_thread_iteration_relays (List.replicate 4096 0)
    { halt := false, bulk_ret := 0, transferred := 60, bulk_data := List.replicate 60 69,
      write_ret := 60 } 60 rfl (by decide) rfl (by decide) (by simp)

/-! ## The halt check of the workers -/

theorem tun_thread_iteration_halt (buf : List Nat) (io : TunStep) (h : io.halt = true) :
    tun_thread_iteration buf io = (buf, [], LoopControl.leave) := by
  simp [tun_thread_iteration, h]

theorem acc_thread_iteration_halt (buf : List Nat) (io : AccStep) (h : io.halt = true) :
    acc_thread_iteration buf io = (buf, [], LoopControl.leave) := by
  simp [acc_thread_iteration, h]

/-- A step of a running TUN to USB worker, by what its iteration decides. -/
theorem relay_step_tun (s : RelayState) (io : TunStep) (hr : s.tun_running = true) :
    relay_step s (RelayEvent.tun io) =
      (if (tun_thread_iteration s.tun_buf { io with halt := s.halt }).2.2 = LoopControl.leave then
        { s with tun_buf := (tun_thread_iteration s.tun_buf { io with halt := s.halt }).1,
                 tun_running := false, halt := true }
       else
        { s with tun_buf := (tun_thread_iteration s.tun_buf { io with halt := s.halt }).1 },
       (tun_thread_iteration s.tun_buf { io with halt := s.halt }).2.1) := by
  simp only [relay_step, hr, if_true]
  rcases h : tun_thread_iteration s.tun_buf { io with halt := s.halt } with ⟨buf, effects, ctl⟩
  cases ctl <;> simp

/-- A step of a running USB to TUN worker, by what its iteration decides. -/
theorem relay_step_acc (s : RelayState) (io : AccStep) (hr : s.acc_running = true) :
    relay_step s (RelayEvent.acc io) =
      (if (acc_thread_iteration s.acc_buf { io with halt := s.halt }).2.2 = LoopControl.leave then
        { s with acc_buf := (acc_thread_iteration s.acc_buf { io with halt := s.halt }).1,
                 acc_running := false, halt := true }
       else
        { s with acc_buf := (acc_thread_iteration s.acc_buf { io with halt := s.halt }).1 },
       (acc_thread_iteration s.acc_buf { io with halt := s.halt }).2.1) := by
  simp only [relay_step, hr, if_true]
  rcases h : acc_thread_iteration s.acc_buf { io with halt := s.halt } with ⟨buf, effects, ctl⟩
  cases ctl <;> simp

/-- Once `halt` is set, a step keeps it set, does nothing to the environment, and the
worker that takes the step has returned afterwards. -/
theorem relay_step_halted (s : RelayState) (e : RelayEvent) (h : s.halt = true) :
    (relay_step s e).1.halt = true ∧ (relay_step s e).2 = [] ∧
    (∀ io, e = RelayEvent.tun io → (relay_step s e).1.tun_running = false) ∧
    (∀ io, e = RelayEvent.acc io → (relay_step s e).1.acc_running = false) := by
  cases e with
  | tun io =>
    by_cases hr : s.tun_running = true
    · rw [relay_step_tun s io hr, tun_thread_iteration_halt _ _ (by exact h)]
      simp
    · simp only [Bool.not_eq_true] at hr
      simp [relay_step, hr, h]
  | acc io =>
    by_cases hr : s.acc_running = true
    · rw [relay_step_acc s io hr, acc_thread_iteration_halt _ _ (by exact h)]
      simp
    · simp only [Bool.not_eq_true] at hr
      simp [relay_step, hr, h]
  | signal => simp [relay_step]

/-- Once `halt` is set, it stays set over any sequence of steps, and nothing more is done to
the environment. -/
theorem relay_run_halted (evs : List RelayEvent) : ∀ (s : RelayState), s.halt = true →
    (relay_run s evs).1.halt = true ∧ (relay_run s evs).2 = [] := by
  induction evs with
  | nil => intro s h; exact ⟨h, rfl⟩
  | cons e rest ih =>
    intro s h
    obtain ⟨h1, h2, -, -⟩ := relay_step_halted s e h
    obtain ⟨i1, i2⟩ := ih (relay_step s e).1 h1
    simp only [relay_run, i1, i2, h2, List.append_nil, and_self]

/-- What the TUN to USB worker decides after a bulk transfer it has issued. -/
theorem tun_thread_iteration_bulk (buf : List Nat) (io : TunStep)
    (h : bulk_transfers (tun_thread_iteration buf io).2.1 ≠ []) :
    (io.bulk_ret = LIBUSB_ERROR_TIMEOUT →
      (tun_thread_iteration buf io).2.2 = LoopControl.again) ∧
    (io.bulk_ret < 0 → io.bulk_ret ≠ LIBUSB_ERROR_TIMEOUT →
      (tun_thread_iteration buf io).2.2 = LoopControl.leave) ∧
    io.halt = false := by
  unfold tun_thread_iteration at h ⊢
  generalize (io.read_ret % 2 ^ 64).toNat = nread at h ⊢
  by_cases hh : io.halt = true
  · simp [hh, bulk_transfers] at h
  · by_cases h1 : io.select_status < 0
    · by_cases he : io.select_eintr = true <;> simp [hh, h1, he, bulk_transfers] at h
    · by_cases h2 : io.select_status = 0
      · simp [hh, h1, h2, bulk_transfers] at h
      · by_cases hn : nread > 0
        · simp only [Bool.not_eq_true] at hh
          simp only [hh, h1, h2, hn, if_true, if_false, Bool.false_eq_true]
          refine ⟨fun ht => ?_, fun hneg hnt => ?_, trivial⟩
          · simp [ht, LIBUSB_ERROR_TIMEOUT]
          · simp [hneg, hnt]
        · simp [hh, h1, h2, hn, bulk_transfers] at h

/-- What the USB to TUN worker decides after a bulk transfer it has issued. -/
theorem acc_thread_iteration_bulk (buf : List Nat) (io : AccStep)
    (h : bulk_transfers (acc_thread_iteration buf io).2.1 ≠ []) :
    (io.bulk_ret = LIBUSB_ERROR_TIMEOUT →
      (acc_thread_iteration buf io).2.2 = LoopControl.again ∧
      tun_writes (acc_thread_iteration buf io).2.1 = []) ∧
    (io.bulk_ret < 0 → io.bulk_ret ≠ LIBUSB_ERROR_TIMEOUT →
      (acc_thread_iteration buf io).2.2 = LoopControl.leave ∧
      tun_writes (acc_thread_iteration buf io).2.1 = []) ∧
    io.halt = false := by
  unfold acc_thread_iteration at h ⊢
  split_ifs at h ⊢ <;> simp_all [bulk_transfers, tun_writes, LIBUSB_ERROR_TIMEOUT] <;> omega


/-- After a worker has left its loop, whatever happens next, the sibling's next iteration
does nothing to the environment and the sibling returns. -/
theorem relay_sibling_ends (s : RelayState) (h : s.halt = true) (evs : List RelayEvent) :
    (relay_run s evs).1.halt = true ∧
    (∀ io, (relay_step (relay_run s evs).1 (RelayEvent.tun io)).1.tun_running = false ∧
      (relay_step (relay_run s evs).1 (RelayEvent.tun io)).2 = []) ∧
    (∀ io, (relay_step (relay_run s evs).1 (RelayEvent.acc io)).1.acc_running = false ∧
      (relay_step (relay_run s evs).1 (RelayEvent.acc io)).2 = []) := by
  have hh := (relay_run_halted evs s h).1
  refine ⟨hh, fun io => ?_, fun io => ?_⟩
  · obtain ⟨-, k2, k3, -⟩ := relay_step_halted (relay_run s evs).1 (RelayEvent.tun io) hh
    exact ⟨k3 io rfl, k2⟩
  · obtain ⟨-, k2, -, k4⟩ := relay_step_halted (relay_run s evs).1 (RelayEvent.acc io) hh
    exact ⟨k4 io rfl, k2⟩

/-! ## C12: the result of a bulk transfer in the relay -/

/-- C12. For either worker, in any state of the relay: when an iteration issues a bulk
transfer and it returns `LIBUSB_ERROR_TIMEOUT`, the worker leaves `halt` as it was and stays
in its loop (the USB to TUN worker without writing to the TUN fd); when it returns any other
negative value, the worker leaves its loop, `halt` is set and the worker has returned, and
from then on `halt` stays set and the next iteration of the sibling does nothing to the
environment and ends the sibling. -/
theorem bulk_result_handling (s : RelayState) :
    (∀ io : TunStep, s.tun_running = true →
      bulk_transfers (relay_step s (RelayEvent.tun io)).2 ≠ [] →
      (io.bulk_ret = LIBUSB_ERROR_TIMEOUT →
        (relay_step s (RelayEvent.tun io)).1.halt = s.halt ∧
        (relay_step s (RelayEvent.tun io)).1.tun_running = true) ∧
      (io.bulk_ret < 0 → io.bulk_ret ≠ LIBUSB_ERROR_TIMEOUT →
        (relay_step s (RelayEvent.tun io)).1.halt = true ∧
        (relay_step s (RelayEvent.tun io)).1.tun_running = false ∧
        ∀ (evs : List RelayEvent) (io2 : AccStep),
          (relay_run (relay_step s (RelayEvent.tun io)).1 evs).1.halt = true ∧
          (relay_step (relay_run (relay_step s (RelayEvent.tun io)).1 evs).1
            (RelayEvent.acc io2)).1.acc_running = false ∧
          (relay_step (relay_run (relay_step s (RelayEvent.tun io)).1 evs).1
            (RelayEvent.acc io2)).2 = [])) ∧
    (∀ io : AccStep, s.acc_running = true →
      bulk_transfers (relay_step s (RelayEvent.acc io)).2 ≠ [] →
      (io.bulk_ret = LIBUSB_ERROR_TIMEOUT →
        (relay_step s (RelayEvent.acc io)).1.halt = s.halt ∧
        (relay_step s (RelayEvent.acc io)).1.acc_running = true ∧
        tun_writes (relay_step s (RelayEvent.acc io)).2 = []) ∧
      (io.bulk_ret < 0 → io.bulk_ret ≠ LIBUSB_ERROR_TIMEOUT →
        (relay_step s (RelayEvent.acc io)).1.halt = true ∧
        (relay_step s (RelayEvent.acc io)).1.acc_running = false ∧
        ∀ (evs : List RelayEvent) (io2 : TunStep),
          (relay_run (relay_step s (RelayEvent.acc io)).1 evs).1.halt = true ∧
          (relay_step (relay_run (relay_step s (RelayEvent.acc io)).1 evs).1
            (RelayEvent.tun io2)).1.tun_running = false ∧
          (relay_step (relay_run (relay_step s (RelayEvent.acc io)).1 evs).1
            (RelayEvent.tun io2)).2 = [])) := by
  constructor
  · intro io hr hb
    rw [relay_step_tun s io hr] at hb ⊢
    obtain ⟨k1, k2, -⟩ := tun_thread_iteration_bulk s.tun_buf { io with halt := s.halt } hb
    constructor
    · intro ht
      rw [k1 ht]
      simp [hr]
    · intro hneg hnt
      rw [k2 hneg hnt]
      simp only [if_true, true_and]
      intro evs io2
      obtain ⟨r1, -, r3⟩ := relay_sibling_ends
        { s with tun_buf := (tun_thread_iteration s.tun_buf { io with halt := s.halt }).1,
                 tun_running := false, halt := true } rfl evs
      exact ⟨r1, r3 io2⟩
  · intro io hr hb
    rw [relay_step_acc s io hr] at hb ⊢
    obtain ⟨k1, k2, -⟩ := acc_thread_iteration_bulk s.acc_buf { io with halt := s.halt } hb
    constructor
    · intro ht
      rw [(k1 ht).1]
      simp [hr, (k1 ht).2]
    · intro hneg hnt
      rw [(k2 hneg hnt).1]
      simp only [if_true, true_and]
      intro evs io2
      obtain ⟨r1, r2, -⟩ := relay_sibling_ends
        { s with acc_buf := (acc_thread_iteration s.acc_buf { io with halt := s.halt }).1,
                 acc_running := false, halt := true } rfl evs
      exact ⟨r1, r2 io2⟩

/-- Witness for C12: from the start of the relay, a bulk OUT transfer that times out leaves
`halt` false and the TUN to USB worker in its loop; a bulk IN transfer that returns
`LIBUSB_ERROR_NO_DEVICE` (-4) ends the USB to TUN worker with `halt` set, and the next
iteration of the TUN to USB worker does nothing and ends it. -/
theorem bulk_result_handling_witness :
    ((relay_step (relay_start [] []) (RelayEvent.tun (tun_reads_100 (-7)))).1.halt = false ∧
      (relay_step (relay_start [] []) (RelayEvent.tun (tun_reads_100 (-7)))).1.tun_running
        = true) ∧
    ((relay_step (relay_start [] []) (RelayEvent.acc (acc_bulk_returns (-4)))).1.halt = true ∧
      (relay_step (relay_start [] []) (RelayEvent.acc (acc_bulk_returns (-4)))).1.acc_running
        = false ∧
      (relay_step (relay_run
          (relay_step (relay_start [] []) (RelayEvent.acc (acc_bulk_returns (-4)))).1 []).1
        (RelayEvent.tun (tun_reads_100 0))).1.tun_running = false ∧
      (relay_step (relay_run
          (relay_step (relay_start [] []) (RelayEvent.acc (acc_bulk_returns (-4)))).1 []).1
        (RelayEvent.tun (tun_reads_100 0))).2 = []) :=
  ⟨((bulk_result_handling (relay_start [] [])).1 (tun_reads_100 (-7)) rfl (by decide)).1
      (by decide),
   (((bulk_result_handling (relay_start [] [])).2 (acc_bulk_returns (-4)) rfl (by decide)).2
      (by decide) (by decide)).1,
   (((bulk_result_handling (relay_start [] [])).2 (acc_bulk_returns (-4)) rfl (by decide)).2
      (by decide) (by decide)).2.1,
   ((((bulk_result_handling (relay_start [] [])).2 (acc_bulk_returns (-4)) rfl (by decide)).2
      (by decide) (by decide)).2.2 [] (tun_reads_100 0)).2⟩

/-- What the USB to TUN worker decides after a write it has issued. -/
theorem acc_thread_iteration_write (buf : List Nat) (io : AccStep)
    (h : tun_writes (acc_thread_iteration buf io).2.1 ≠ []) :
    (io.write_ret < 0 → (acc_thread_iteration buf io).2.2 = LoopControl.leave) ∧
    (0 ≤ io.write_ret → (acc_thread_iteration buf io).2.2 = LoopControl.again) := by
  unfold acc_thread_iteration at h ⊢
  split_ifs at h ⊢ <;> simp_all [tun_writes]

/-! ## C16: the result of the write to the TUN fd -/

/-- C16, as the code has it. When an iteration of the USB to TUN worker has written to the
TUN fd: if `write` returns a negative value the worker leaves its loop, `halt` is set and
the worker has returned; if `write` returns any non-negative value, whether or not it is
the number of bytes received, the worker leaves `halt` as it was and stays in its loop. -/
theorem write_result_handling (s : RelayState) (io : AccStep) (hr : s.acc_running = true)
    (hw : tun_writes (relay_step s (RelayEvent.acc io)).2 ≠ []) :
    (io.write_ret < 0 →
      (relay_step s (RelayEvent.acc io)).1.halt = true ∧
      (relay_step s (RelayEvent.acc io)).1.acc_running = false) ∧
    (0 ≤ io.write_ret →
      (relay_step s (RelayEvent.acc io)).1.halt = s.halt ∧
      (relay_step s (RelayEvent.acc io)).1.acc_running = true) := by
  rw [relay_step_acc s io hr] at hw ⊢
  obtain ⟨k1, k2⟩ := acc_thread_iteration_write s.acc_buf { io with halt := s.halt } hw
  constructor
  · intro hneg
    rw [k1 hneg]
    simp
  · intro hpos
    rw [k2 hpos]
    simp [hr]

/-- Witness for C16: after 60 bytes were received, a failed write (-1) ends the worker with
`halt` set. -/
theorem write_result_handling_witness :
    (relay_step (relay_start [] []) (RelayEvent.acc (acc_receives_60 (-1)))).1.halt = true ∧
    (relay_step (relay_start [] []) (RelayEvent.acc (acc_receives_60 (-1)))).1.acc_running
      = false :=
  (write_result_handling (relay_start [] []) (acc_receives_60 (-1)) rfl (by decide)).1
    (by decide)

/-- C16 as stated fails. The bulk IN transfer delivers 60 bytes and `write` reports 10 bytes
written: the worker does not leave its loop (it is still running after this iteration) and
`halt` stays false. -/
theorem short_write_continues :
    tun_writes (acc_thread_iteration [] (acc_receives_60 10)).2.1 = [List.replicate 60 69] ∧
    (acc_thread_iteration [] (acc_receives_60 10)).2.2 = LoopControl.again ∧
    acc_thread_func [] [acc_receives_60 10] = none ∧
    (relay_step (relay_start [] []) (RelayEvent.acc (acc_receives_60 10))).1.halt = false ∧
    (relay_step (relay_start [] []) (RelayEvent.acc (acc_receives_60 10))).1.acc_running
      = true := by
  decide

/-! ## C17: a failed or empty read from the TUN fd -/

/-- C17, evaluated on the code. When `read` returns 0 the worker issues no bulk transfer and
leaves its loop, as claimed. When `read` returns -1, `nread` (a `gsize`) is
`2 ^ 64 - 1 > 0`: the worker issues a bulk OUT transfer on endpoint `0x02` with the stale
buffer and length -1, and when that transfer returns 0 it stays in its loop with `halt`
still false. -/
theorem negative_read_is_relayed (acc_buf : List Nat) :
    (tun_thread_iteration acc_buf (tun_read_returns 0)).2 =
      ([Effect.select_tun 1, Effect.read_tun 4096], LoopControl.leave) ∧
    tun_thread_iteration acc_buf (tun_read_returns (-1)) =
      (acc_buf,
       [Effect.select_tun 1, Effect.read_tun 4096,
        Effect.bulk_transfer { endpoint := 0x02, buffer := acc_buf, length := -1,
                               timeout := 200 }],
       LoopControl.again) ∧
    tun_thread_func acc_buf [tun_read_returns (-1)] = none ∧
    (relay_step (relay_start acc_buf []) (RelayEvent.tun (tun_read_returns (-1)))).1.halt
      = false ∧
    (relay_step (relay_start acc_buf []) (RelayEvent.tun (tun_read_returns (-1)))).1.tun_running
      = true := by
  have hg : to_gint 18446744073709551615 = -1 := by decide
  have h0 : (tun_thread_iteration acc_buf (tun_read_returns 0)).2 =
      ([Effect.select_tun 1, Effect.read_tun 4096], LoopControl.leave) := by
    simp [tun_thread_iteration, tun_read_returns, ACC_BUFFER_SIZE]
  have h1 : tun_thread_iteration acc_buf (tun_read_returns (-1)) =
      (acc_buf,
       [Effect.select_tun 1, Effect.read_tun 4096,
        Effect.bulk_transfer { endpoint := 0x02, buffer := acc_buf, length := -1,
                               timeout := 200 }],
       LoopControl.again) := by
    simp [tun_thread_iteration, tun_read_returns, ACC_BUFFER_SIZE, AOA_ACCESSORY_EP_OUT,
      ACC_TIMEOUT, hg]
  have hstep : (relay_step (relay_start acc_buf []) (RelayEvent.tun (tun_read_returns (-1)))).1 =
      relay_start acc_buf [] := by
    simp [relay_step, relay_start, tun_thread_iteration, tun_read_returns, hg]
  refine ⟨h0, h1, ?_, ?_, ?_⟩
  · simp only [tun_thread_func, h1]
  · rw [hstep]; rfl
  · rw [hstep]; rfl

/-! ## The halt flag -/

/-- A worker that returns leaves `halt` set. -/
theorem tun_thread_func_halt (ios : List TunStep) : ∀ (buf : List Nat) (r : List Effect × Bool),
    tun_thread_func buf ios = some r → r.2 = true := by
  induction ios with
  | nil => intro buf r h; simp [tun_thread_func] at h
  | cons io rest ih =>
    intro buf r h
    unfold tun_thread_func at h
    rcases hit : tun_thread_iteration buf io with ⟨b, effects, ctl⟩
    rw [hit] at h
    cases ctl with
    | leave =>
      simp only [Option.some.injEq] at h
      rw [← h]
    | again =>
      simp only at h
      cases hrest : tun_thread_func b rest with
      | none => rw [hrest] at h; simp at h
      | some r2 =>
        rw [hrest] at h
        simp only [Option.some.injEq] at h
        rw [← h]
        exact ih b r2 hrest

theorem acc_thread_func_halt (ios : List AccStep) : ∀ (buf : List Nat) (r : List Effect × Bool),
    acc_thread_func buf ios = some r → r.2 = true := by
  induction ios with
  | nil => intro buf r h; simp [acc_thread_func] at h
  | cons io rest ih =>
    intro buf r h
    unfold acc_thread_func at h
    rcases hit : acc_thread_iteration buf io with ⟨b, effects, ctl⟩
    rw [hit] at h
    cases ctl with
    | leave =>
      simp only [Option.some.injEq] at h
      rw [← h]
    | again =>
      simp only at h
      cases hrest : acc_thread_func b rest with
      | none => rw [hrest] at h; simp at h
      | some r2 =>
        rw [hrest] at h
        simp only [Option.some.injEq] at h
        rw [← h]
        exact ih b r2 hrest

/-- A worker whose halt check reads true returns at once, having done nothing. -/
theorem tun_thread_func_halted (buf : List Nat) (io : TunStep) (rest : List TunStep)
    (h : io.halt = true) : tun_thread_func buf (io :: rest) = some ([], true) := by
  simp only [tun_thread_func, tun_thread_iteration_halt buf io h]

theorem acc_thread_func_halted (buf : List Nat) (io : AccStep) (rest : List AccStep)
    (h : io.halt = true) : acc_thread_func buf (io :: rest) = some ([], true) := by
  simp only [acc_thread_func, acc_thread_iteration_halt buf io h]

/-- In the relay, a worker that has returned has left `halt` set: one step. -/
theorem relay_step_returned (s : RelayState) (e : RelayEvent)
    (h : (s.tun_running = false → s.halt = true) ∧ (s.acc_running = false → s.halt = true)) :
    ((relay_step s e).1.tun_running = false → (relay_step s e).1.halt = true) ∧
    ((relay_step s e).1.acc_running = false → (relay_step s e).1.halt = true) := by
  cases e with
  | tun io =>
    by_cases hr : s.tun_running = true
    · rw [relay_step_tun s io hr]
      split_ifs
      · simp
      · simpa [hr] using h.2
    · simp only [Bool.not_eq_true] at hr
      simpa [relay_step, hr] using h
  | acc io =>
    by_cases hr : s.acc_running = true
    · rw [relay_step_acc s io hr]
      split_ifs
      · simp
      · simpa [hr] using h.1
    · simp only [Bool.not_eq_true] at hr
      simpa [relay_step, hr] using h
  | signal => simp [relay_step]

/-- In the relay, a worker that has returned has left `halt` set. -/
theorem relay_run_returned (evs : List RelayEvent) : ∀ (s : RelayState),
    ((s.tun_running = false → s.halt = true) ∧ (s.acc_running = false → s.halt = true)) →
    ((relay_run s evs).1.tun_running = false → (relay_run s evs).1.halt = true) ∧
    ((relay_run s evs).1.acc_running = false → (relay_run s evs).1.halt = true) := by
  induction evs with
  | nil => intro s h; exact h
  | cons e rest ih => intro s h; exact ih _ (relay_step_returned s e h)


/-! ## No function of the program resets `halt` -/

theorem device_probe_aoa_halt (d : Device) (env : UsbEnv) :
    (device_probe_aoa d env).2.1.halt = d.halt := by
  unfold device_probe_aoa
  split
  · rfl
  · dsimp only
    split
    · split
      · rfl
      · split <;> rfl
    · split <;> rfl

theorem device_setup_tethering_halt (c : Context) (d : Device) :
    (device_setup_tethering c d).2.1.halt = d.halt := by
  unfold device_setup_tethering
  dsimp only
  split <;> rfl

theorem device_setup_aoa_halt (c : Context) (d : Device) (rets : Nat → Int) :
    (device_setup_aoa c d rets).2.1.halt = d.halt := by
  unfold device_setup_aoa
  dsimp only
  repeat' split
  all_goals rfl

theorem conn_thread_func_halt (c : Context) (d : Device) (env : ConnEnv) (h : d.halt = true) :
    (conn_thread_func c d env).1.halt = true := by
  unfold conn_thread_func conn_thread_out
  dsimp only
  split_ifs <;> first | exact h | rfl

theorem quit_cb_halt (c : Context) : ∀ d ∈ (quit_cb c).tracked_devices, d.halt = true := by
  intro d hd
  unfold quit_cb at hd
  simp only [List.mem_map] at hd
  obtain ⟨x, -, hx⟩ := hd
  rw [← hx]

theorem track_device_subset (c : Context) (aoa : Bool) (p : String)
    (vid pid busnum devnum : Nat) (env : UsbEnv) :
    ∀ d ∈ c.tracked_devices, d ∈ (track_device c aoa p vid pid busnum devnum env).1.tracked_devices := by
  intro d hd
  unfold track_device
  split
  · exact hd
  · split
    · exact hd
    · dsimp only
      split_ifs
      all_goals first | exact hd | exact List.mem_cons_of_mem _ hd

theorem device_added_aoa_loop_subset (pids : List Nat) (c : Context) (p : String)
    (vid pid busnum devnum : Nat) (env : UsbEnv) :
    ∀ d ∈ c.tracked_devices,
      d ∈ (device_added_aoa_loop c pids p vid pid busnum devnum env).1.tracked_devices := by
  induction pids with
  | nil => intro d hd; exact hd
  | cons x rest ih =>
    intro d hd
    unfold device_added_aoa_loop
    split
    · exact track_device_subset _ _ _ _ _ _ _ _ d hd
    · exact ih d hd

theorem device_added_subset (c : Context) (device : UdevDevice) (env : UsbEnv) :
    ∀ d ∈ c.tracked_devices, d ∈ (device_added c device env).1.tracked_devices := by
  intro d hd
  unfold device_added
  dsimp only
  split
  · exact hd
  · split
    · exact hd
    · split
      · exact hd
      · rename_i sysfs_path _
        have h1 : d ∈
            (if device.idVendor = c.vid ∧ (device.idProduct = c.pid ∨ c.pid = 0) then
              track_device c false sysfs_path (device.idVendor % 65536)
                (device.idProduct % 65536) (device.busnum % 2 ^ 32) (device.devnum % 2 ^ 32) env
            else (c, [])).1.tracked_devices := by
          split
          · exact track_device_subset _ _ _ _ _ _ _ _ d hd
          · exact hd
        split
        · exact device_added_aoa_loop_subset _ _ _ _ _ _ _ _ d h1
        · exact h1

/-- The tracked devices after a timeout source has fired: either nothing changed, or one
record was replaced by a record with the same path and the same `halt`. -/
theorem fire_timeout_tracked (c : Context) (p : String) (rets : Nat → Int) :
    (fire_timeout c p rets).1.tracked_devices = c.tracked_devices ∨
    ∃ l dev dnew, c.tracked_devices.get? l = some dev ∧ dnew.sysfs_path = dev.sysfs_path ∧
      dnew.halt = dev.halt ∧
      (fire_timeout c p rets).1.tracked_devices = c.tracked_devices.set l dnew := by
  unfold fire_timeout
  split
  · exact Or.inl rfl
  · rename_i l _
    split
    · exact Or.inl rfl
    · rename_i device hdev
      split
      · dsimp only
        split
        · obtain ⟨f1, f2⟩ := device_setup_tethering_frame c
            { device with source_attached := false }
          refine Or.inr ⟨l, device, _, hdev, f2,
            device_setup_tethering_halt c { device with source_attached := false }, ?_⟩
          rw [f1]
        · obtain ⟨f1, f2⟩ := device_setup_aoa_frame c
            { device with source_attached := false } rets
          refine Or.inr ⟨l, device, _, hdev, f2,
            device_setup_aoa_halt c { device with source_attached := false } rets, ?_⟩
          rw [f1]
      · exact Or.inl rfl

/-- A dispatch of the main loop never takes `halt` back: a tracked device whose `halt` is
set and that is still tracked afterwards still has `halt` set. -/
theorem step_keeps_halt (c : Context) (e : Event) (hc : paths_distinct c) (d d2 : Device)
    (hd : d ∈ c.tracked_devices) (hh : d.halt = true)
    (hd2 : d2 ∈ (step c e).1.tracked_devices) (hp : d2.sysfs_path = d.sysfs_path) :
    d2.halt = true := by
  have hinj := List.inj_on_of_nodup_map hc
  cases e with
  | add device env =>
    have hc2 : paths_distinct (device_added c device env).1 := device_added_distinct c device env hc
    have hdin := device_added_subset c device env d hd
    have := List.inj_on_of_nodup_map hc2 hd2 hdin hp
    rw [this]; exact hh
  | remove device =>
    simp only [step, device_removed] at hd2
    split at hd2
    · rw [hinj hd2 hd hp]; exact hh
    · rw [untrack_device_of_distinct c _ hc] at hd2
      have hm := (List.mem_filter.1 hd2).1
      rw [hinj hm hd hp]; exact hh
  | timeout p rets =>
    simp only [step] at hd2
    rcases fire_timeout_tracked c p rets with h | ⟨l, dev, dnew, hget, hpath, hhalt, hset⟩
    · rw [h] at hd2
      rw [hinj hd2 hd hp]; exact hh
    · rw [hset] at hd2
      rcases List.mem_or_eq_of_mem_set hd2 with hm | hm
      · rw [hinj hm hd hp]; exact hh
      · have hdev : dev ∈ c.tracked_devices := List.get?_mem hget
        have : dev = d := hinj hdev hd (by rw [← hpath, ← hm, hp])
        rw [hm, hhalt, this]; exact hh
  | signal => exact quit_cb_halt c d2 hd2

/-! ## C18: cooperative halt -/

/-- C18. Cooperative halt. For both relay workers, an iteration whose halt check reads true
does nothing to the environment (no select, read, bulk transfer or write), leaves the loop,
and the worker returns with `halt` set; whenever a worker returns, `halt` is set, in the
worker on its own and in the relay of a device from its start; a signal sets `halt`; no
operation takes `halt` back (the relay steps, the AOA probe and setup, the tethering setup,
the connection thread, a dispatch of the main loop); and once `halt` is set in the relay,
over whatever follows nothing more is done to the environment and the next iteration of
either worker ends that worker. -/
theorem cooperative_halt (s : RelayState) (evs : List RelayEvent) (tun_buf acc_buf : List Nat) :
    (∀ (io : TunStep) (rest : List TunStep), io.halt = true →
      tun_thread_iteration tun_buf io = (tun_buf, [], LoopControl.leave) ∧
      tun_thread_func tun_buf (io :: rest) = some ([], true)) ∧
    (∀ (io : AccStep) (rest : List AccStep), io.halt = true →
      acc_thread_iteration acc_buf io = (acc_buf, [], LoopControl.leave) ∧
      acc_thread_func acc_buf (io :: rest) = some ([], true)) ∧
    (∀ (ios : List TunStep) (r : List Effect × Bool),
      tun_thread_func tun_buf ios = some r → r.2 = true) ∧
    (∀ (ios : List AccStep) (r : List Effect × Bool),
      acc_thread_func acc_buf ios = some r → r.2 = true) ∧
    ((relay_run (relay_start tun_buf acc_buf) evs).1.tun_running = false →
      (relay_run (relay_start tun_buf acc_buf) evs).1.halt = true) ∧
    ((relay_run (relay_start tun_buf acc_buf) evs).1.acc_running = false →
      (relay_run (relay_start tun_buf acc_buf) evs).1.halt = true) ∧
    (relay_step s RelayEvent.signal).1.halt = true ∧
    (∀ (c : Context), ∀ d ∈ (quit_cb c).tracked_devices, d.halt = true) ∧
    (∀ (d : Device) (env : UsbEnv), (device_probe_aoa d env).2.1.halt = d.halt) ∧
    (∀ (c : Context) (d : Device) (rets : Nat → Int),
      (device_setup_aoa c d rets).2.1.halt = d.halt) ∧
    (∀ (c : Context) (d : Device), (device_setup_tethering c d).2.1.halt = d.halt) ∧
    (∀ (c : Context) (d : Device) (env : ConnEnv), d.halt = true →
      (conn_thread_func c d env).1.halt = true) ∧
    (∀ (c : Context) (e : Event) (d d2 : Device), paths_distinct c →
      d ∈ c.tracked_devices → d.halt = true → d2 ∈ (step c e).1.tracked_devices →
      d2.sysfs_path = d.sysfs_path → d2.halt = true) ∧
    (s.halt = true →
      (relay_run s evs).1.halt = true ∧ (relay_run s evs).2 = [] ∧
      (∀ io, (relay_step (relay_run s evs).1 (RelayEvent.tun io)).1.tun_running = false ∧
        (relay_step (relay_run s evs).1 (RelayEvent.tun io)).2 = []) ∧
      (∀ io, (relay_step (relay_run s evs).1 (RelayEvent.acc io)).1.acc_running = false ∧
        (relay_step (relay_run s evs).1 (RelayEvent.acc io)).2 = [])) := by
  have hret := relay_run_returned evs (relay_start tun_buf acc_buf)
    ⟨fun h => by simp [relay_start] at h, fun h => by simp [relay_start] at h⟩
  refine ⟨fun io rest h => ⟨tun_thread_iteration_halt _ io h, tun_thread_func_halted _ io rest h⟩,
    fun io rest h => ⟨acc_thread_iteration_halt _ io h, acc_thread_func_halted _ io rest h⟩,
    fun ios r => tun_thread_func_halt ios tun_buf r,
    fun ios r => acc_thread_func_halt ios acc_buf r,
    hret.1, hret.2, rfl, quit_cb_halt, device_probe_aoa_halt, device_setup_aoa_halt,
    device_setup_tethering_halt, conn_thread_func_halt,
    fun c e d d2 hc hd hh hd2 hp => step_keeps_halt c e hc d d2 hd hh hd2 hp, fun h => ?_⟩
  obtain ⟨k1, k2, k3⟩ := relay_sibling_ends s h evs
  exact ⟨k1, (relay_run_halted evs s h).2, k2, k3⟩

/-- The relay of C18 at work: the USB to TUN worker's bulk IN transfer fails with
`LIBUSB_ERROR_NO_DEVICE`, then the TUN to USB worker, with a packet waiting, runs its next
iteration: nothing is issued and both workers have returned with `halt` set. -/
theorem cooperative_halt_witness :
    (relay_step (relay_start [] []) (RelayEvent.acc (acc_bulk_returns (-4)))).1.halt = true ∧
    (relay_run (relay_step (relay_start [] []) (RelayEvent.acc (acc_bulk_returns (-4)))).1
      [RelayEvent.tun (tun_reads_100 0)]).1 =
      { halt := true, tun_running := false, acc_running := false, tun_buf := [],
        acc_buf := [] } ∧
    (relay_run (relay_step (relay_start [] []) (RelayEvent.acc (acc_bulk_returns (-4)))).1
      [RelayEvent.tun (tun_reads_100 0)]).2 = [] :=
  have h : (relay_step (relay_start [] [])
      (RelayEvent.acc (acc_bulk_returns (-4)))).1.halt = true := by decide
  ⟨h, by decide,
    ((cooperative_halt
      (relay_step (relay_start [] []) (RelayEvent.acc (acc_bulk_returns (-4)))).1
      [RelayEvent.tun (tun_reads_100 0)] [] []).2.2.2.2.2.2.2.2.2.2.2.2.2 h).2.1⟩

/-! ## Reset mode -/

theorem opened_paths_append (a b : List ResetAction) :
    opened_paths (a ++ b) = opened_paths a ++ opened_paths b := by
  induction a with
  | nil => rfl
  | cons x rest ih => cases x <;> simp [opened_paths, ih]

/-- A call of `reset_device` opens the path of the device, once, and nothing else. -/
theorem reset_device_opened (busnum devnum : Nat) (env : ResetEnv) :
    opened_paths (reset_device busnum devnum env).2 = [reset_path busnum devnum] := by
  unfold reset_device
  split_ifs <;> rfl

/-- A call of `reset_device` returns true exactly when the open succeeded and the ioctl
succeeded or failed with `ENODEV`. -/
theorem reset_device_counts (device : UdevDevice) (busnum devnum : Nat) (env : ResetEnv) :
    (reset_device busnum devnum env).1 = reset_counts (device, env) := by
  unfold reset_device reset_counts
  by_cases h1 : env.open_ret > -1
  · have h1b : 0 ≤ env.open_ret := by omega
    by_cases h2 : env.ioctl_ret < 0
    · have h2b : ¬ 0 ≤ env.ioctl_ret := by omega
      cases he : env.errno_enodev <;> simp [h1, h2, h1b, h2b, he]
    · have h2b : 0 ≤ env.ioctl_ret := by omega
      simp [h1, h2, h1b, h2b]
  · have h1b : ¬ 0 ≤ env.open_ret := by omega
    simp [h1, h1b]

/-- The search loop over `aoa_pids` runs to the end exactly for a product id outside
`0x2D00` ... `0x2D05`. -/
theorem aoa_pid_search_end (pid : Nat) :
    aoa_pid_search aoa_pids pid 0 = aoa_pids.length ↔ ¬ (0x2D00 ≤ pid ∧ pid ≤ 0x2D05) := by
  simp only [aoa_pids, aoa_pid_search, AOA_ACCESSORY_PID, AOA_ACCESSORY_ADB_PID, AOA_AUDIO_PID,
    AOA_AUDIO_ADB_PID, AOA_ACCESSORY_AUDIO_PID, AOA_ACCESSORY_AUDIO_ADB_PID, List.length_cons,
    List.length_nil]
  split_ifs
  · constructor
    · intro h; exact h.elim
    · intro h; omega
  all_goals omega

theorem toDigitsCore_digits (fuel : Nat) : ∀ (n : Nat) (ds : List Char), 0 < n → n < fuel →
    Nat.toDigitsCore 10 fuel n ds = (Nat.digits 10 n).reverse.map Nat.digitChar ++ ds := by
  induction fuel with
  | zero => intro n ds _ h; omega
  | succ fuel ih =>
    intro n ds hpos h
    unfold Nat.toDigitsCore
    rw [Nat.digits_def' (by norm_num) hpos]
    by_cases h0 : n / 10 = 0
    · simp [h0]
    · have hq : 0 < n / 10 := Nat.pos_of_ne_zero h0
      rw [if_neg h0]
      rw [ih (n / 10) _ hq (by omega)]
      simp

/-- The conversion `%u` of a positive number: its decimal digits, most significant first. -/
theorem toString_digits (n : Nat) (h : 0 < n) :
    (toString n).data = (Nat.digits 10 n).reverse.map Nat.digitChar := by
  show (Nat.repr n).data = _
  unfold Nat.repr Nat.toDigits
  rw [toDigitsCore_digits (n + 1) n [] h (by omega)]
  simp [List.asString]

/-- The conversion `%03u` of `reset_device` is the padded decimal of the specification. -/
theorem pad3_eq (n : Nat) : pad3 n = padded_decimal n := by
  apply String.ext
  rcases Nat.eq_zero_or_pos n with h0 | hpos
  · subst h0; decide
  · have hs := toString_digits n hpos
    have hl : (toString n).length = (Nat.digits 10 n).length := by
      show (toString n).data.length = _
      rw [hs, List.length_map, List.length_reverse]
    have hd : (pad3 n).data =
        List.replicate (3 - (Nat.digits 10 n).length) '0' ++
          (Nat.digits 10 n).reverse.map Nat.digitChar := by
      unfold pad3
      rw [String.data_append, hl, hs]
    rw [hd]
    unfold padded_decimal
    by_cases h3 : n < 1000
    · rw [if_pos h3]
      by_cases h1 : n < 10
      · have e1 : n / 100 = 0 := by omega
        have e2 : n / 10 % 10 = 0 := by omega
        have e3 : n % 10 = n := by omega
        have e4 : n / 10 = 0 := by omega
        rw [Nat.digits_def' (by norm_num) hpos, e1, e2, e3, e4]
        simp
        rfl
      · have hq : 0 < n / 10 := by omega
        by_cases h2 : n < 100
        · have e1 : n / 100 = 0 := by omega
          have e2 : n / 10 % 10 = n / 10 := by omega
          have e4 : n / 10 / 10 = 0 := by omega
          rw [Nat.digits_def' (by norm_num) hpos, Nat.digits_def' (by norm_num) hq, e1, e2, e4]
          simp
          rfl
        · have hq2 : 0 < n / 10 / 10 := by omega
          have e1 : n / 10 / 10 = n / 100 := by omega
          have e4 : n / 100 / 10 = 0 := by omega
          have e5 : n / 100 % 10 = n / 100 := by omega
          rw [Nat.digits_def' (by norm_num) hpos, Nat.digits_def' (by norm_num) hq,
            Nat.digits_def' (by norm_num) hq2, e1, e4, e5]
          simp
    · rw [if_neg h3]
      have hlen : 4 ≤ (Nat.digits 10 n).length := by
        by_contra hlt
        have hb : n < 10 ^ (Nat.digits 10 n).length :=
          Nat.lt_base_pow_length_digits (by norm_num)
        have : 10 ^ (Nat.digits 10 n).length ≤ 10 ^ 3 :=
          Nat.pow_le_pow_right (by norm_num) (by omega)
        omega
      have hz : 3 - (Nat.digits 10 n).length = 0 := by omega
      rw [hz]
      simp

/-- The path `reset_device` opens is the device node of the specification. -/
theorem reset_path_eq (busnum devnum : Nat) :
    reset_path busnum devnum = usb_device_path busnum devnum := by
  unfold reset_path usb_device_path
  rw [pad3_eq, pad3_eq]

/-- What a call of `reset_device` does is the reset attempt of the specification. -/
theorem reset_device_attempt (x : UdevDevice × ResetEnv) :
    (reset_device x.1.busnum x.1.devnum x.2).2 = reset_attempt x := by
  unfold reset_device reset_attempt
  rw [reset_path_eq]
  by_cases h : x.2.open_ret > -1
  · have h2 : 0 ≤ x.2.open_ret := by omega
    rw [if_pos h, if_pos h2]
    split_ifs <;> rfl
  · have h2 : ¬ 0 ≤ x.2.open_ret := by omega
    rw [if_neg h, if_neg h2]

theorem opened_paths_attempts (l : List (UdevDevice × ResetEnv)) :
    opened_paths (l.map reset_attempt).flatten =
      l.map fun x => usb_device_path x.1.busnum x.1.devnum := by
  induction l with
  | nil => rfl
  | cons x rest ih =>
    simp only [List.map_cons, List.flatten_cons, opened_paths_append, ih]
    unfold reset_attempt
    split_ifs <;> rfl

/-- The loop of `initial_list_reset` from any value of the counter that leaves room for the
devices still to come: the counter afterwards and everything that was done. -/
theorem initial_list_reset_loop_attempts (devices : List (UdevDevice × ResetEnv)) :
    ∀ (n_resets : Nat), n_resets + devices.length < 2 ^ 32 →
    (∀ x ∈ devices, x.1.busnum < 2 ^ 32 ∧ x.1.devnum < 2 ^ 32) →
    (initial_list_reset_loop devices n_resets).1 =
      n_resets + ((devices.filter reset_selected).filter reset_counts).length ∧
    (initial_list_reset_loop devices n_resets).2 =
      ((devices.filter reset_selected).map reset_attempt).flatten := by
  induction devices with
  | nil => intro n _ _; exact ⟨rfl, rfl⟩
  | cons x rest ih =>
    intro n hn hb
    obtain ⟨device, env⟩ := x
    have hrest : ∀ m, m ≤ n + 1 →
        (initial_list_reset_loop rest m).1 =
          m + ((rest.filter reset_selected).filter reset_counts).length ∧
        (initial_list_reset_loop rest m).2 =
          ((rest.filter reset_selected).map reset_attempt).flatten := by
      intro m hm
      refine ih m ?_ (fun y hy => hb y (List.mem_cons_of_mem _ hy))
      simp only [List.length_cons] at hn
      omega
    obtain ⟨hbus, hdev⟩ := hb (device, env) (List.mem_cons_self _ _)
    simp only at hbus hdev
    unfold initial_list_reset_loop
    by_cases hv : device.idVendor ≠ AOA_ACCESSORY_VID
    · have hs : reset_selected (device, env) = false := by
        simp only [reset_selected, decide_eq_false_iff_not]
        intro h; exact hv h.1
      rw [if_pos hv]
      simp only [List.filter_cons, hs, Bool.false_eq_true, if_false]
      exact hrest n (by omega)
    · rw [if_neg hv]
      by_cases hp : aoa_pid_search aoa_pids device.idProduct 0 = aoa_pids.length
      · have hs : reset_selected (device, env) = false := by
          simp only [reset_selected, decide_eq_false_iff_not]
          intro h; exact (aoa_pid_search_end _).1 hp ⟨h.2.1, h.2.2.1⟩
        rw [if_pos hp]
        simp only [List.filter_cons, hs, Bool.false_eq_true, if_false]
        exact hrest n (by omega)
      · rw [if_neg hp]
        by_cases hz : device.busnum = 0 ∨ device.devnum = 0
        · have hs : reset_selected (device, env) = false := by
            simp only [reset_selected, decide_eq_false_iff_not]
            intro h
            rcases hz with hz | hz
            · exact h.2.2.2.1 hz
            · exact h.2.2.2.2 hz
          rw [if_pos hz]
          simp only [List.filter_cons, hs, Bool.false_eq_true, if_false]
          exact hrest n (by omega)
        · have hs : reset_selected (device, env) = true := by
            simp only [reset_selected, decide_eq_true_eq]
            have hpid := not_not.1 (fun h => hp ((aoa_pid_search_end _).2 h))
            push_neg at hz
            simp only [ne_eq, not_not, AOA_ACCESSORY_VID] at hv
            exact ⟨hv, hpid.1, hpid.2, hz.1, hz.2⟩
          have hatt := reset_device_attempt (device, env)
          simp only at hatt
          rw [if_neg hz]
          simp only [List.filter_cons, hs, if_true, List.map_cons, List.flatten_cons,
            Nat.mod_eq_of_lt hbus, Nat.mod_eq_of_lt hdev, hatt, reset_device_counts device]
          cases hc : reset_counts (device, env)
          · simp only [Bool.false_eq_true, if_false]
            obtain ⟨r1, r2⟩ := hrest n (by omega)
            exact ⟨r1, by rw [r2]⟩
          · simp only [if_true, List.length_cons]
            have hlt : n + 1 < 2 ^ 32 := by
              simp only [List.length_cons] at hn
              omega
            rw [Nat.mod_eq_of_lt hlt]
            obtain ⟨r1, r2⟩ := hrest (n + 1) (by omega)
            exact ⟨by rw [r1]; omega, by rw [r2]⟩

/-! ## C13: selection and count in reset mode -/

/-- C13. For every list of enumerated USB devices (bus and device numbers below 2^32, fewer
than 2^32 devices), `initial_list_reset` makes a reset attempt on exactly the devices whose
`idVendor` is `0x18D1`, whose `idProduct` is one of `0x2D00` ... `0x2D05` and whose `busnum`
and `devnum` are non-zero, in the order of the list and doing nothing else: for each it opens
`/dev/bus/usb/<bus>/<addr>`, each number in decimal padded with zeros to 3 digits, and when
the open succeeded issues the reset ioctl and closes the fd; the total it reports is the
number of those devices for which the open succeeded and the reset ioctl succeeded or failed
with `ENODEV`; and it reports the error exactly when that number is zero. -/
theorem initial_list_reset_selection (devices : List (UdevDevice × ResetEnv))
    (hnum : ∀ x ∈ devices, x.1.busnum < 2 ^ 32 ∧ x.1.devnum < 2 ^ 32)
    (hlen : devices.length < 2 ^ 32) :
    (initial_list_reset devices).2 =
      ((devices.filter reset_selected).map reset_attempt).flatten ∧
    opened_paths (initial_list_reset devices).2 =
      (devices.filter reset_selected).map (fun x => usb_device_path x.1.busnum x.1.devnum) ∧
    ((initial_list_reset devices).1 = ResetReport.no_devices_reset ↔
      ((devices.filter reset_selected).filter reset_counts).length = 0) ∧
    (((devices.filter reset_selected).filter reset_counts).length ≠ 0 →
      (initial_list_reset devices).1 =
        ResetReport.total ((devices.filter reset_selected).filter reset_counts).length) := by
  obtain ⟨h1, h2⟩ := initial_list_reset_loop_attempts devices 0 (by omega) hnum
  rw [Nat.zero_add] at h1
  have h3 : opened_paths (initial_list_reset_loop devices 0).2 =
      (devices.filter reset_selected).map
        (fun x => usb_device_path x.1.busnum x.1.devnum) := by
    rw [h2, opened_paths_attempts]
  unfold initial_list_reset
  dsimp only
  rw [h1]
  split_ifs with h0
  · exact ⟨h2, h3, ⟨fun _ => h0, fun _ => rfl⟩, fun h => absurd h0 h⟩
  · exact ⟨h2, h3, ⟨fun h => False.elim h, fun h => absurd h h0⟩, fun _ => rfl⟩

/-- Witness for C13: in the worked scenario four devices are selected; the device at bus 2,
address 3 is opened at `/dev/bus/usb/002/003`, the one at bus 10, address 127 at
`/dev/bus/usb/010/127`; the ioctl is issued on the three that could be opened; the total is
2 (the success and the `ENODEV`). -/
theorem initial_list_reset_selection_witness :
    (initial_list_reset reset_scenario).2 =
      [ResetAction.open_wronly "/dev/bus/usb/002/003", ResetAction.ioctl_reset,
       ResetAction.close,
       ResetAction.open_wronly "/dev/bus/usb/010/127", ResetAction.ioctl_reset,
       ResetAction.close,
       ResetAction.open_wronly "/dev/bus/usb/001/013",
       ResetAction.open_wronly "/dev/bus/usb/003/064", ResetAction.ioctl_reset,
       ResetAction.close] ∧
    (initial_list_reset reset_scenario).1 = ResetReport.total 2 :=
  have h := initial_list_reset_selection reset_scenario (by decide) (by decide)
  ⟨h.1.trans (by decide), (h.2.2.2 (by decide)).trans (by decide)⟩

/-! ## The tracked record through the setup phase -/

/-- What `device_free` does to the environment: it removes the timeout source and drops the
`libusb_device` reference, nothing else. -/
theorem device_free_only (d : Device) :
    ∀ e ∈ device_free d, e = Effect.source_remove d.timeout_id ∨ e = Effect.unref_device := by
  intro e he
  unfold device_free at he
  split_ifs at he <;> simp at he <;> simp [he]

/-- C15 (divergence). `untrack_device` does nothing to the environment but what
`device_free` does: every effect is a `g_source_remove` or a `libusb_unref_device`; no worker
is joined, no interface released, no handle closed, no TUN fd closed.  With the accessory of
port `/p/1-1` tracked and its relay running (`halt` false, connection thread and both workers
alive, handle open, TUN fd 3), a remove event for the port drops the record from the set as
it is, `halt` still false, and the only effect is the `libusb_unref_device`. -/
theorem untrack_device_leaves_relay_running :
    (∀ (c : Context) (p : String), ∀ e ∈ (untrack_device c p).2,
      (∃ id, e = Effect.source_remove id) ∨ e = Effect.unref_device) ∧
    (relay_started (run start_context (plug (port 1))) (port 1) tun0_env).tracked_devices =
      [{ plugged_device (port 1) 1 with
         timeout_id := 0, tun_fd := 3, tun_name := "tun0", usb_handle := true,
         tun_thread := true, acc_thread := true }] ∧
    (relay_started (run start_context (plug (port 1))) (port 1) tun0_env).tracked_devices.map
      (fun d => d.halt) = [false] ∧
    (relay_started (run start_context (plug (port 1))) (port 1) tun0_env).tracked_devices.map
      (fun d => d.conn_thread && d.tun_thread && d.acc_thread && d.usb_handle) = [true] ∧
    (step (relay_started (run start_context (plug (port 1))) (port 1) tun0_env)
      (Event.remove (accessory_at (port 1)))).2 = [Effect.unref_device] ∧
    (step (relay_started (run start_context (plug (port 1))) (port 1) tun0_env)
      (Event.remove (accessory_at (port 1)))).1.tracked_devices = [] := by
  refine ⟨fun c p e he => ?_, by decide, by decide, by decide, by decide, by decide⟩
  unfold untrack_device at he
  split at he
  · simp at he
  · split at he
    · simp at he
    · rename_i device _
      rcases device_free_only device e he with h | h
      · exact Or.inl ⟨_, h⟩
      · exact Or.inr h

end SimpleRT
